import Mathlib

/-!
# lenses-go command line client: required flags, payload resolution, fan-out

A shallow embedding of the command bodies (`RunE` closures) of
`cmd/lenses-cli/connector_command.go` and `pkg/topic/commands.go`.

Every command is a pure function of its flag values, its positional
arguments and of the collaborators it talks to (the remote client, the file
helpers, the printer).  It returns a `Run`: the error the command returns,
the collaborator calls it made in program order, and what it wrote.
-/

namespace Lenses

/-! ## Values, errors, Go maps -/

/-- A Go `interface{}` value as the CLI stores it in flag maps and configs. -/
inductive Value
  | nil
  | str (s : String)
  | int (n : Int)
  | bool (b : Bool)
  deriving DecidableEq, Repr

/-- The zero value of the dynamic type: `""`, `0`, `false`, and the nil interface. -/
def Value.isZero : Value → Bool
  | .nil => true
  | .str s => decide (s = "")
  | .int n => decide (n = 0)
  | .bool b => !b

/-- Go `error` values met in the commands. `other` stands for the errors of
collaborators (remote client, file and JSON helpers), `wrapped` for
`fmt.Errorf(format, err)`, `new` for `errors.New(msg)`. -/
inductive Error
  | missingFlags (names : List String)
  | nameMismatch (name configName : Value)
  | other (msg : String)
  | new (msg : String)
  | formatted (format : String) (args : List Value)
  | wrapped (format : String) (args : List Value) (cause : Error)
  deriving DecidableEq, Repr

/-- A Go `map[string]V`: an association list whose keys are pairwise distinct.
The list order is the order of first insertion; Go itself promises no order. -/
abbrev GoMap (V : Type) := List (String × V)

/-- Lookup `m[k]` with the comma-ok result. -/
def GoMap.get {V : Type} (m : GoMap V) (k : String) : Option V :=
  match m with
  | [] => none
  | (k', v) :: rest => if k' = k then some v else GoMap.get rest k

/-- Assignment `m[k] = v`. -/
def GoMap.set {V : Type} (m : GoMap V) (k : String) (v : V) : GoMap V :=
  match m with
  | [] => [(k, v)]
  | (k', v') :: rest => if k' = k then (k, v) :: rest else (k', v') :: GoMap.set rest k v

/-- The statement `m[k] = append(m[k], vs...)`. -/
def GoMap.appendAt {V : Type} (m : GoMap (List V)) (k : String) (vs : List V) : GoMap (List V) :=
  m.set k ((m.get k).getD [] ++ vs)

/-- The keys of a map. -/
def GoMap.keys {V : Type} (m : GoMap V) : List String := m.map Prod.fst

/-- Go `api.KV` and `lenses.ConnectorConfig`: `map[string]interface{}`. -/
abbrev KV := GoMap Value

/-! ## Required flags -/

/-- The `flags` / `bite.FlagPair` argument: flag name to current value, listed
in the order the map is ranged over. -/
abbrev flags := List (String × Value)

/-- Modelled from the spec: `checkRequiredFlags` of cmd/lenses-cli (and its twin
`bite.CheckRequiredFlags`) is called by the commands but defined outside the
given sources. Following section 4.2 it iterates all pairs, collects every key
whose value is the zero value for its type, and if any are collected fails with
one aggregated error listing all of them. -/
def checkRequiredFlags (nameValuePairs : flags) : Option Error :=
  let emptyFlags := (nameValuePairs.filter (fun p => p.2.isZero)).map Prod.fst
  if emptyFlags = [] then none else some (Error.missingFlags emptyFlags)

/-! ## Payloads and remote resources -/

/-- One entry of the list returned by `GetConnectClusters`; only the name is used. -/
structure ConnectCluster where
  Name : String
  deriving DecidableEq, Repr

/-- The fields of `lenses.Connector` the commands look at. `Config` may be a nil map. -/
structure Connector where
  ClusterName : String
  Name : String
  Config : Option KV
  deriving DecidableEq, Repr

/-- The payload `lenses.CreateUpdateConnectorPayload`. -/
structure CreateUpdateConnectorPayload where
  ClusterAlias : String
  Name : String
  Config : KV
  deriving DecidableEq, Repr

/-- The payload `api.CreateTopicPayload`. -/
structure CreateTopicPayload where
  TopicName : String
  Replication : Int
  Partitions : Int
  Configs : KV
  deriving DecidableEq, Repr

/-- The deployment target `api.KubernetesTarget`, as the tests of the processor
package build it. -/
structure KubernetesTarget where
  Cluster : String
  Namespaces : List String
  Version : String
  deriving DecidableEq, Repr

/-- The deployment target `api.KafkaConnectTarget`. -/
structure KafkaConnectTarget where
  Cluster : String
  Version : String
  deriving DecidableEq, Repr

/-- The response `api.DeploymentTargets`. -/
structure DeploymentTargets where
  Kubernetes : List KubernetesTarget
  Connect : List KafkaConnectTarget
  deriving DecidableEq, Repr

/-- One row of the `processors targets` listing, `ListTargetsResult`. The field
`Kind` is the field `Type` of the source. -/
structure ListTargetsResult where
  Kind : String
  ClusterName : String
  Namespace : String
  Version : String
  deriving DecidableEq, Repr

/-- An entry of the list answered by `GetConnectorPlugins`, `lenses.ConnectorPlugin`.
The field `Kind` is the field `Type` of the client package. -/
structure ConnectorPlugin where
  Class : String
  Kind : String
  Version : String
  deriving DecidableEq, Repr

/-! ## Collaborators and traces -/

/-- What a command hands to `printJSON` or `bite.PrintObject`. -/
inductive Printable
  | outlineStringResults (key : String) (values : List String)
  | connectors (m : GoMap (List Connector))
  | connector (c : Connector)
  | config (c : KV)
  | status (s : KV)
  | tasks (t : List KV)
  | clusters (cs : List ConnectCluster)
  | targets (rows : List ListTargetsResult)
  | plugins (ps : List ConnectorPlugin)
  | alertSetting (s : KV)
  deriving DecidableEq, Repr

/-- An argument of a format string. -/
inductive Arg
  | s (v : String)
  | i (v : Int)
  | e (v : Error)
  deriving DecidableEq, Repr

/-- The observable steps of a command, in program order. -/
inductive Event
  | GetConnectClusters
  | GetConnectors (clusterName : String)
  | GetConnector (clusterName name : String)
  | CreateConnector (clusterAlias name : String) (config : KV)
  | UpdateConnector (clusterAlias name : String) (config : KV)
  | CreateTopic (topicName : String) (replication partitions : Int) (configs : KV)
  | UpdateTopic (topicName : String) (configs : List KV) (partitions : Int)
  | loadFile (path : String)
  | tryReadFile (path : String)
  | jsonUnmarshal (data : String)
  | printJSON (v : Printable)
  | echo (format : String) (args : List Arg)
  | stderr (format : String) (args : List Arg)
  | logError (format : String) (args : List Arg)
  | setNotFoundMessage (format : String) (args : List Arg)
  | GetConnectorConfig (clusterName name : String)
  | GetConnectorStatus (clusterName name : String)
  | PauseConnector (clusterName name : String)
  | ResumeConnector (clusterName name : String)
  | RestartConnector (clusterName name : String)
  | GetConnectorTasks (clusterName name : String)
  | DeleteConnector (clusterName name : String)
  | GetTopicsNames
  | GetAvailableTopicConfigKeys
  | GetDeploymentTargets
  | DeleteTopic (topicName : String)
  | DeleteTopicRecords (topicName : String) (fromPartition toOffset : Int)
  | UpdateDatasetDescription (connection name description : String)
  | UpdateDatasetTags (connection name : String) (tags : List String)
  | stdout (text : String)
  | printObject (v : Printable)
  | GetConnectorPlugins (clusterName : String)
  | CreateOrUpdateAlertSettingCondition (alertID : Int) (condition : String)
  | EnableAlertSetting (id : Int) (enable : Bool)
  | GetAlertSetting (id : Int)
  deriving DecidableEq, Repr

/-- The outcome of one command run: the returned `error` and the trace. -/
structure Run where
  err : Option Error
  trace : List Event
  deriving DecidableEq, Repr

/-- The remote client methods used by the connector commands. Each answer is a
function of the request. -/
structure ConnectClient where
  GetConnectClusters : Except Error (List ConnectCluster)
  GetConnectors : String → Except Error (List String)
  GetConnector : String → String → Except Error Connector
  CreateConnector : String → String → KV → Except Error Connector
  UpdateConnector : String → String → KV → Except Error Connector

/-- The remote client methods used by the topic commands. -/
structure TopicClient where
  CreateTopic : String → Int → Int → KV → Option Error
  UpdateTopic : String → List KV → Int → Option Error

/-- The local helpers. `loadFile path p` decodes a whole file onto the payload
`p`; `tryReadFile path m` and `jsonUnmarshal data m` decode into the map `m`
through its pointer, so they answer with the error (if any) and the map as they
leave it. -/
structure Helpers where
  loadFile : String → CreateUpdateConnectorPayload → Except Error CreateUpdateConnectorPayload
  tryReadFile : String → KV → Option Error × KV
  jsonUnmarshal : String → KV → Option Error × KV

/-- The printing helpers `printJSON` and `echo` / `bite.PrintInfo`; each may fail. -/
structure Printer where
  printJSON : Printable → Option Error
  echo : String → List Arg → Option Error

/-! ## Connector payload normalisation -/

/-- Modelled from the spec: `CreateUpdateConnectorPayload.ApplyAndValidateName`
belongs to the client package and is not among the given sources. Following
section 4.1 step 4, it copies an explicitly given name into the name entry of
the payload's config when that entry is missing, and rejects a config whose
name entry differs from an explicitly given (non-empty) name. -/
def ApplyAndValidateName (c : CreateUpdateConnectorPayload) :
    Except Error CreateUpdateConnectorPayload :=
  match c.Config.get "name" with
  | none =>
    if c.Name = "" then .ok c
    else .ok { c with Config := c.Config.set "name" (Value.str c.Name) }
  | some configName =>
    if c.Name ≠ "" ∧ configName ≠ Value.str c.Name then
      .error (Error.nameMismatch (Value.str c.Name) configName)
    else .ok c

/-! ## `connector create` and `connector update` -/

/-- The body of `newConnectorCreateCommand` (connector_command.go, lines 250-287).
`clusterName`, `name`, `configRaw` are the flag values, `args` the positional
arguments, `silent` the package-level flag. -/
def connectorCreateRunE (client : ConnectClient) (env : Helpers) (pr : Printer) (silent : Bool)
    (clusterName name configRaw : String) (args : List String) : Run :=
  let connector : CreateUpdateConnectorPayload :=
    { ClusterAlias := clusterName, Name := name, Config := [] }
  let loaded : Except Error CreateUpdateConnectorPayload × List Event :=
    match args with
    | path :: _ => (env.loadFile path connector, [Event.loadFile path])
    | [] =>
      match env.tryReadFile configRaw connector.Config with
      | (some err, _) => (.error err, [Event.tryReadFile configRaw])
      | (none, config) => (.ok { connector with Config := config }, [Event.tryReadFile configRaw])
  match loaded.1 with
  | .error err => { err := some err, trace := loaded.2 }
  | .ok connector =>
    match ApplyAndValidateName connector with
    | .error err => { err := some err, trace := loaded.2 }
    | .ok connector =>
      match checkRequiredFlags
          [("clusterName", Value.str connector.ClusterAlias), ("name", Value.str connector.Name)] with
      | some err => { err := some err, trace := loaded.2 }
      | none =>
        let called := loaded.2 ++
          [Event.CreateConnector connector.ClusterAlias connector.Name connector.Config]
        match client.CreateConnector connector.ClusterAlias connector.Name connector.Config with
        | .error err => { err := some err, trace := called }
        | .ok _ =>
          if silent then { err := none, trace := called }
          else
            { err := pr.echo "Connector %s created" [Arg.s connector.Name],
              trace := called ++ [Event.echo "Connector %s created" [Arg.s connector.Name]] }

/-- The tail of `newConnectorUpdateCommand` (lines 347-358): the update call and
the report. `got` is the trace so far. -/
def connectorUpdateSend (client : ConnectClient) (pr : Printer) (silent : Bool)
    (connector : CreateUpdateConnectorPayload) (got : List Event) : Run :=
  let called := got ++
    [Event.UpdateConnector connector.ClusterAlias connector.Name connector.Config]
  match client.UpdateConnector connector.ClusterAlias connector.Name connector.Config with
  | .error err => { err := some err, trace := called }
  | .ok updatedConnector =>
    if silent then { err := none, trace := called }
    else
      { err := pr.printJSON (Printable.connector updatedConnector),
        trace := called ++
          [Event.echo "Connector %s updated\n\n" [Arg.s connector.Name],
           Event.printJSON (Printable.connector updatedConnector)] }

/-- The body of `newConnectorUpdateCommand` (connector_command.go, lines 307-359). -/
def connectorUpdateRunE (client : ConnectClient) (env : Helpers) (pr : Printer) (silent : Bool)
    (clusterName name configRaw : String) (args : List String) : Run :=
  let connector : CreateUpdateConnectorPayload :=
    { ClusterAlias := clusterName, Name := name, Config := [] }
  let loaded : Except Error CreateUpdateConnectorPayload × List Event :=
    match args with
    | path :: _ => (env.loadFile path connector, [Event.loadFile path])
    | [] =>
      match env.tryReadFile configRaw connector.Config with
      | (some err, _) => (.error err, [Event.tryReadFile configRaw])
      | (none, config) => (.ok { connector with Config := config }, [Event.tryReadFile configRaw])
  match loaded.1 with
  | .error err => { err := some err, trace := loaded.2 }
  | .ok connector =>
    match ApplyAndValidateName connector with
    | .error err => { err := some err, trace := loaded.2 }
    | .ok connector =>
      match checkRequiredFlags
          [("clusterName", Value.str connector.ClusterAlias), ("name", Value.str connector.Name)] with
      | some err => { err := some err, trace := loaded.2 }
      | none =>
        let got := loaded.2 ++ [Event.GetConnector connector.ClusterAlias connector.Name]
        match client.GetConnector connector.ClusterAlias connector.Name with
        | .error err =>
          { err := some err,
            trace := got ++ [Event.setNotFoundMessage "connector '%s:%s' does not exist"
              [Arg.s connector.ClusterAlias, Arg.s connector.Name]] }
        | .ok existingConnector =>
          match existingConnector.Config with
          | none => connectorUpdateSend client pr silent connector got
          | some config =>
            let existingNameValue := (config.get "name").getD Value.nil
            if existingNameValue ≠ Value.str connector.Name then
              { err := some (Error.formatted
                  "connector config[\"name\"] '%s' does not match with the existing one '%s'"
                  [Value.str connector.Name, existingNameValue]),
                trace := got }
            else connectorUpdateSend client pr silent connector got

/-! ## `topic create` and `topic update` -/

/-- The tail of `NewTopicCreateCommand` (commands.go, lines 316-321): the create
call and the report. `soFar` is the trace so far. -/
def topicCreateSend (client : TopicClient) (pr : Printer) (topic : CreateTopicPayload)
    (soFar : List Event) : Run :=
  let called := soFar ++
    [Event.CreateTopic topic.TopicName topic.Replication topic.Partitions topic.Configs]
  match client.CreateTopic topic.TopicName topic.Replication topic.Partitions topic.Configs with
  | some err =>
    { err := some err,
      trace := called ++
        [Event.logError "Failed to create topic [%s]. [%s]" [Arg.s topic.TopicName, Arg.e err]] }
  | none =>
    { err := pr.echo "Topic [%s] created" [Arg.s topic.TopicName],
      trace := called ++ [Event.echo "Topic [%s] created" [Arg.s topic.TopicName]] }

/-- The body of `NewTopicCreateCommand` (commands.go, lines 301-322). `topic` is
the payload as the flags and the bound file left it, `configsRaw` the value of
`--configs`. -/
def topicCreateRunE (client : TopicClient) (env : Helpers) (pr : Printer)
    (topic : CreateTopicPayload) (configsRaw : String) : Run :=
  match checkRequiredFlags [("name", Value.str topic.TopicName)] with
  | some err => { err := some err, trace := [] }
  | none =>
    if configsRaw ≠ "" then
      match env.tryReadFile configsRaw topic.Configs with
      | (none, configs) =>
        topicCreateSend client pr { topic with Configs := configs } [Event.tryReadFile configsRaw]
      | (some _, configs) =>
        match env.jsonUnmarshal configsRaw configs with
        | (some err, _) =>
          { err := some (Error.wrapped "Unable to unmarshal the configs: [%v]" [] err),
            trace := [Event.tryReadFile configsRaw, Event.jsonUnmarshal configsRaw] }
        | (none, configs) =>
          topicCreateSend client pr { topic with Configs := configs }
            [Event.tryReadFile configsRaw, Event.jsonUnmarshal configsRaw]
    else topicCreateSend client pr topic []

/-- The body of `NewTopicUpdateCommand` (commands.go, lines 399-426). `partitions`
is the value of `--partitions`. The local `confs` of the source, which collects
`topic.Configs` and the inline `cfg`, is never read again: the update call is
given `[]api.KV{topic.Configs}`. -/
def topicUpdateRunE (client : TopicClient) (env : Helpers) (pr : Printer)
    (topic : CreateTopicPayload) (configsRaw : String) (partitions : Int) : Run :=
  match checkRequiredFlags [("name", Value.str topic.TopicName)] with
  | some err => { err := some err, trace := [] }
  | none =>
    let resolved : Except Error KV × List Event :=
      if configsRaw ≠ "" then
        match env.tryReadFile configsRaw topic.Configs with
        | (none, configs) => (.ok configs, [Event.tryReadFile configsRaw])
        | (some _, configs) =>
          match env.jsonUnmarshal configsRaw [] with
          | (some err, _) =>
            (.error (Error.wrapped "Unable to unmarshal the configs: %v" [] err),
              [Event.tryReadFile configsRaw, Event.jsonUnmarshal configsRaw])
          | (none, _) => (.ok configs, [Event.tryReadFile configsRaw, Event.jsonUnmarshal configsRaw])
      else (.ok topic.Configs, [])
    match resolved.1 with
    | .error err => { err := some err, trace := resolved.2 }
    | .ok configs =>
      let partitions := if topic.Partitions ≠ 0 then topic.Partitions else partitions
      let called := resolved.2 ++ [Event.UpdateTopic topic.TopicName [configs] partitions]
      match client.UpdateTopic topic.TopicName [configs] partitions with
      | some err =>
        { err := some (Error.wrapped "failed to update topic [%s]. [%s]"
            [Value.str topic.TopicName] err),
          trace := called }
      | none =>
        { err := pr.echo "Config updated for topic [%s]" [Arg.s topic.TopicName],
          trace := called ++ [Event.echo "Config updated for topic [%s]" [Arg.s topic.TopicName]] }

/-! ## `connectors` -/

/-- The cluster loop of `newConnectorsCommand` (lines 42-48): one `GetConnectors`
call per cluster, in list order; the first failing call ends the command. Returns
the map `connectorNames` (or the error) and the calls made. -/
def collectNames (client : ConnectClient) :
    List ConnectCluster → GoMap (List String) → Except Error (GoMap (List String)) × List Event
  | [], connectorNames => (.ok connectorNames, [])
  | cluster :: rest, connectorNames =>
    match client.GetConnectors cluster.Name with
    | .error err => (.error err, [Event.GetConnectors cluster.Name])
    | .ok clusterConnectorsNames =>
      let r := collectNames client rest (connectorNames.appendAt cluster.Name clusterConnectorsNames)
      (r.1, Event.GetConnectors cluster.Name :: r.2)

/-- Lines 32-56 of `newConnectorsCommand`: fill `connectorNames`, from all known
clusters when `clusterName` is `*`, else from the one cluster named. -/
def fetchNames (client : ConnectClient) (clusterName : String) :
    Except Error (GoMap (List String)) × List Event :=
  if clusterName = "*" then
    match client.GetConnectClusters with
    | .error err => (.error err, [Event.GetConnectClusters])
    | .ok clusters =>
      let r := collectNames client clusters []
      (r.1, Event.GetConnectClusters :: r.2)
  else
    match client.GetConnectors clusterName with
    | .error err => (.error err, [Event.GetConnectors clusterName])
    | .ok names => (.ok (GoMap.set [] clusterName names), [Event.GetConnectors clusterName])

/-- The loop of lines 59-62: `names = append(names, cNames...)` for every entry
met while ranging over the map. -/
def flattenNames (entries : List (String × List String)) : List String :=
  entries.foldl (fun names e => names ++ e.2) []

/-- The accumulator of the detail loop: the map `connectors` and the trace. -/
structure Details where
  connectors : GoMap (List Connector)
  trace : List Event
  deriving DecidableEq, Repr

/-- The inner loop of lines 71-79 for one cluster: a failing `GetConnector` is
written to stderr and skipped, a fetched connector is appended under its cluster. -/
def fetchCluster (client : ConnectClient) (cluster : String) : List String → Details → Details
  | [], acc => acc
  | name :: rest, acc =>
    match client.GetConnector cluster name with
    | .error err =>
      fetchCluster client cluster rest
        { connectors := acc.connectors,
          trace := acc.trace ++ [Event.GetConnector cluster name,
            Event.stderr "get connector error: %v\n" [Arg.e err]] }
    | .ok connector =>
      fetchCluster client cluster rest
        { connectors := acc.connectors.appendAt cluster [connector],
          trace := acc.trace ++ [Event.GetConnector cluster name] }

/-- The outer loop of lines 70-80 over the entries of `connectorNames`, in the
order the range statement meets them. -/
def fetchDetails (client : ConnectClient) : List (String × List String) → Details → Details
  | [], acc => acc
  | (cluster, names) :: rest, acc => fetchDetails client rest (fetchCluster client cluster names acc)

/-- The body of `newConnectorsCommand` (connector_command.go, lines 31-87).
`rangeOrder` is the order in which this run's `range` statement visits the
entries of `connectorNames`; Go leaves it unspecified, each entry is visited once. -/
def connectorsRunE (client : ConnectClient) (pr : Printer)
    (rangeOrder : GoMap (List String) → List (String × List String))
    (clusterName : String) (namesOnly : Bool) : Run :=
  let fetched := fetchNames client clusterName
  match fetched.1 with
  | .error err => { err := some err, trace := fetched.2 }
  | .ok connectorNames =>
    if namesOnly then
      let names := flattenNames (rangeOrder connectorNames)
      { err := pr.printJSON (Printable.outlineStringResults "name" names),
        trace := fetched.2 ++ [Event.printJSON (Printable.outlineStringResults "name" names)] }
    else
      let r := fetchDetails client (rangeOrder connectorNames) { connectors := [], trace := [] }
      { err := pr.printJSON (Printable.connectors r.connectors),
        trace := fetched.2 ++ r.trace ++ [Event.printJSON (Printable.connectors r.connectors)] }

/-- The value handed to `printJSON` as the last step of a run, if the run ends so. -/
def Run.printed (r : Run) : Option Printable :=
  match r.trace.getLast? with
  | some (Event.printJSON v) => some v
  | _ => none

/-- The calls of a trace that go to the remote client. -/
def Event.isRemote : Event → Bool
  | Event.GetConnectClusters => true
  | Event.GetConnectors _ => true
  | Event.GetConnector _ _ => true
  | Event.CreateConnector _ _ _ => true
  | Event.UpdateConnector _ _ _ => true
  | Event.CreateTopic _ _ _ _ => true
  | Event.UpdateTopic _ _ _ => true
  | Event.GetConnectorConfig _ _ => true
  | Event.GetConnectorStatus _ _ => true
  | Event.PauseConnector _ _ => true
  | Event.ResumeConnector _ _ => true
  | Event.RestartConnector _ _ => true
  | Event.GetConnectorTasks _ _ => true
  | Event.DeleteConnector _ _ => true
  | Event.GetTopicsNames => true
  | Event.GetAvailableTopicConfigKeys => true
  | Event.GetDeploymentTargets => true
  | Event.DeleteTopic _ => true
  | Event.DeleteTopicRecords _ _ _ => true
  | Event.UpdateDatasetDescription _ _ _ => true
  | Event.UpdateDatasetTags _ _ _ => true
  | Event.GetConnectorPlugins _ => true
  | Event.CreateOrUpdateAlertSettingCondition _ _ => true
  | Event.EnableAlertSetting _ _ => true
  | Event.GetAlertSetting _ => true
  | _ => false

/-- Lines 251-275 of `newConnectorCreateCommand`, repeated as lines 308-332 of
`newConnectorUpdateCommand`: the payload as it stands once the file or the
`--config` value is loaded, the name is validated and the required flags are
checked, or the error of the first of these steps that fails. -/
def resolveConnectorPayload (env : Helpers) (clusterName name configRaw : String)
    (args : List String) : Except Error CreateUpdateConnectorPayload :=
  let connector : CreateUpdateConnectorPayload :=
    { ClusterAlias := clusterName, Name := name, Config := [] }
  let loaded : Except Error CreateUpdateConnectorPayload :=
    match args with
    | path :: _ => env.loadFile path connector
    | [] =>
      match env.tryReadFile configRaw connector.Config with
      | (some err, _) => .error err
      | (none, config) => .ok { connector with Config := config }
  match loaded with
  | .error err => .error err
  | .ok connector =>
    match ApplyAndValidateName connector with
    | .error err => .error err
    | .ok connector =>
      match checkRequiredFlags
          [("clusterName", Value.str connector.ClusterAlias), ("name", Value.str connector.Name)] with
      | some err => .error err
      | none => .ok connector

/-- The connectors of one cluster whose `GetConnector` call succeeds, in the
order of the given names. -/
def fetchedOk (client : ConnectClient) (cluster : String) (names : List String) :
    List Connector :=
  names.filterMap fun name =>
    match client.GetConnector cluster name with
    | .ok connector => some connector
    | .error _ => none

/-! ## Sample collaborators -/

/-- A printer that always succeeds. -/
def okPrinter : Printer :=
  { printJSON := fun _ => none, echo := fun _ _ => none }

/-- A topic client whose calls always succeed. -/
def okTopicClient : TopicClient :=
  { CreateTopic := fun _ _ _ _ => none, UpdateTopic := fun _ _ _ => none }

/-- Helpers for an inline `--configs` value: no file of that name exists, and the
string decodes as JSON to the given pairs, which are added to the target map. -/
def inlineHelpers (parsed : KV) : Helpers :=
  { loadFile := fun _ _ => .error (Error.other "no such file"),
    tryReadFile := fun _ m => (some (Error.other "no such file"), m),
    jsonUnmarshal := fun _ m => (none, m ++ parsed) }

/-- The inline `--configs` value of the usage example of `topic update`: a JSON
object with the members key and value. -/
def inlineConfigsExample : String :=
  "\x7b\"key\": \"max.message.bytes\", \"value\": \"1000020\"\x7d"

/-- Helpers for a positional file that binds the given config and leaves the
other payload fields as the flags set them. -/
def fileHelpers (config : KV) : Helpers :=
  { loadFile := fun _ p => .ok { p with Config := config },
    tryReadFile := fun _ m => (none, m),
    jsonUnmarshal := fun _ m => (none, m) }

/-- The content of a connector file: each payload field is either supplied by
the file or omitted from it. -/
structure ConnectorFile where
  ClusterAlias : Option String
  Name : Option String
  Config : Option KV
  deriving DecidableEq, Repr

/-- Modelled from the spec: `loadFile` of cmd/lenses-cli is called by the
connector commands but is not among the given sources. Following sections 4.1
(step 1) and 6, the parsed content of the file is decoded onto the payload: a
field the file supplies overrides the flag-derived value, a field it omits is
left as the flags set it. -/
def bindFile (file : ConnectorFile) (p : CreateUpdateConnectorPayload) :
    CreateUpdateConnectorPayload :=
  { ClusterAlias := file.ClusterAlias.getD p.ClusterAlias,
    Name := file.Name.getD p.Name,
    Config := file.Config.getD p.Config }

/-- Helpers for a positional file of the given content. -/
def boundFileHelpers (file : ConnectorFile) : Helpers :=
  { loadFile := fun _ p => .ok (bindFile file p),
    tryReadFile := fun _ m => (none, m),
    jsonUnmarshal := fun _ m => (none, m) }

/-- The per-cluster name lists of `twoClusterClient`. -/
def twoClusterNames (clusterName : String) : List String :=
  if clusterName = "a" then ["x"] else if clusterName = "b" then ["y"] else []

/-- A connect client with clusters `a` and `b`: `a` runs connector `x`, `b` runs
connector `y`. -/
def twoClusterClient : ConnectClient :=
  { GetConnectClusters := .ok [⟨"a"⟩, ⟨"b"⟩],
    GetConnectors := fun c => .ok (twoClusterNames c),
    GetConnector := fun c n => .ok { ClusterName := c, Name := n, Config := none },
    CreateConnector := fun c n cfg => .ok { ClusterName := c, Name := n, Config := some cfg },
    UpdateConnector := fun c n cfg => .ok { ClusterName := c, Name := n, Config := some cfg } }

/-- The client `twoClusterClient` where connector `x` of cluster `a` cannot be
fetched. -/
def failingConnectorClient : ConnectClient :=
  { twoClusterClient with
    GetConnector := fun c n =>
      if n = "x" then .error (Error.other "gone")
      else .ok { ClusterName := c, Name := n, Config := none } }

/-- The client `twoClusterClient` with the names listing of cluster `b` failing. -/
def failingClusterClient : ConnectClient :=
  { twoClusterClient with
    GetConnectors := fun c => if c = "a" then .ok ["x"] else .error (Error.other "unreachable") }

/-- The per-cluster name lists of `sizedClient`: sizes 2, 0 and 1. -/
def sizedNames (clusterName : String) : List String :=
  if clusterName = "c1" then ["n1", "n2"] else if clusterName = "c3" then ["n3"] else []

/-- A connect client with the clusters `c1`, `c2`, `c3` of sizes 2, 0 and 1. -/
def threeClusterClient : ConnectClient :=
  { twoClusterClient with
    GetConnectClusters := .ok [⟨"c1"⟩, ⟨"c2"⟩, ⟨"c3"⟩],
    GetConnectors := fun c => .ok (sizedNames c) }

/-- A connect client whose cluster list names `c1` twice, around `c2` and `c3`. -/
def sizedClient : ConnectClient :=
  { twoClusterClient with
    GetConnectClusters := .ok [⟨"c1"⟩, ⟨"c2"⟩, ⟨"c3"⟩, ⟨"c1"⟩],
    GetConnectors := fun c => .ok (sizedNames c) }

/-! ## The single-connector commands -/

/-- The remote client methods of the single-connector subcommands; the decoded
config, status and tasks are kept as maps. -/
structure ConnectorClient where
  GetConnectorConfig : String → String → Except Error KV
  GetConnectorStatus : String → String → Except Error KV
  PauseConnector : String → String → Option Error
  ResumeConnector : String → String → Option Error
  RestartConnector : String → String → Option Error
  GetConnectorTasks : String → String → Except Error (List KV)
  DeleteConnector : String → String → Option Error

/-- The body of `newConnectorGroupCommand` (connector_command.go, lines 206-217). -/
def connectorGroupRunE (client : ConnectClient) (pr : Printer) (clusterName name : String) :
    Run :=
  match checkRequiredFlags [("clusterName", Value.str clusterName), ("name", Value.str name)] with
  | some err => { err := some err, trace := [] }
  | none =>
    match client.GetConnector clusterName name with
    | .error err =>
      { err := some err,
        trace := [Event.GetConnector clusterName name,
          Event.setNotFoundMessage "connector '%s:%s' does not exist"
            [Arg.s clusterName, Arg.s name]] }
    | .ok connector =>
      { err := pr.printJSON (Printable.connector connector),
        trace := [Event.GetConnector clusterName name,
          Event.printJSON (Printable.connector connector)] }

/-- The body of `newConnectorGetConfigCommand` (connector_command.go, lines 380-392). -/
def connectorGetConfigRunE (client : ConnectorClient) (pr : Printer) (clusterName name : String) : Run :=
  match checkRequiredFlags [("clusterName", Value.str clusterName), ("name", Value.str name)] with
  | some err => { err := some err, trace := [] }
  | none =>
    match client.GetConnectorConfig clusterName name with
    | .error err =>
      { err := some err,
        trace := [Event.GetConnectorConfig clusterName name,
          Event.setNotFoundMessage "unable to retrieve config, connector '%s:%s' does not exist"
            [Arg.s clusterName, Arg.s name]] }
    | .ok cfg =>
      { err := pr.printJSON (Printable.config cfg),
        trace := [Event.GetConnectorConfig clusterName name, Event.printJSON (Printable.config cfg)] }

/-- The body of `newConnectorGetStatusCommand` (connector_command.go, lines 412-424). -/
def connectorGetStatusRunE (client : ConnectorClient) (pr : Printer) (clusterName name : String) : Run :=
  match checkRequiredFlags [("clusterName", Value.str clusterName), ("name", Value.str name)] with
  | some err => { err := some err, trace := [] }
  | none =>
    match client.GetConnectorStatus clusterName name with
    | .error err =>
      { err := some err,
        trace := [Event.GetConnectorStatus clusterName name,
          Event.setNotFoundMessage "unable to retrieve status, connector '%s:%s' does not exist"
            [Arg.s clusterName, Arg.s name]] }
    | .ok cs =>
      { err := pr.printJSON (Printable.status cs),
        trace := [Event.GetConnectorStatus clusterName name, Event.printJSON (Printable.status cs)] }

/-- The body of `newConnectorGetTasksCommand` (connector_command.go, lines 534-546). -/
def connectorGetTasksRunE (client : ConnectorClient) (pr : Printer) (clusterName name : String) : Run :=
  match checkRequiredFlags [("clusterName", Value.str clusterName), ("name", Value.str name)] with
  | some err => { err := some err, trace := [] }
  | none =>
    match client.GetConnectorTasks clusterName name with
    | .error err =>
      { err := some err,
        trace := [Event.GetConnectorTasks clusterName name,
          Event.setNotFoundMessage "unable to retrieve tasks, connector '%s:%s' does not exist"
            [Arg.s clusterName, Arg.s name]] }
    | .ok tasksMap =>
      { err := pr.printJSON (Printable.tasks tasksMap),
        trace := [Event.GetConnectorTasks clusterName name, Event.printJSON (Printable.tasks tasksMap)] }

/-- The body of `newConnectorPauseCommand` (connector_command.go, lines 444-455). -/
def connectorPauseRunE (client : ConnectorClient) (pr : Printer) (clusterName name : String) : Run :=
  match checkRequiredFlags [("clusterName", Value.str clusterName), ("name", Value.str name)] with
  | some err => { err := some err, trace := [] }
  | none =>
    match client.PauseConnector clusterName name with
    | some err =>
      { err := some err,
        trace := [Event.PauseConnector clusterName name,
          Event.setNotFoundMessage "unable to pause, connector '%s:%s' does not exist"
            [Arg.s clusterName, Arg.s name]] }
    | none =>
      { err := pr.echo "Connector %s:%s paused" [Arg.s clusterName, Arg.s name],
        trace := [Event.PauseConnector clusterName name,
          Event.echo "Connector %s:%s paused" [Arg.s clusterName, Arg.s name]] }

/-- The body of `newConnectorResumeCommand` (connector_command.go, lines 474-485). -/
def connectorResumeRunE (client : ConnectorClient) (pr : Printer) (clusterName name : String) : Run :=
  match checkRequiredFlags [("clusterName", Value.str clusterName), ("name", Value.str name)] with
  | some err => { err := some err, trace := [] }
  | none =>
    match client.ResumeConnector clusterName name with
    | some err =>
      { err := some err,
        trace := [Event.ResumeConnector clusterName name,
          Event.setNotFoundMessage "unable to resume, connector '%s:%s' does not exist"
            [Arg.s clusterName, Arg.s name]] }
    | none =>
      { err := pr.echo "Connector %s:%s resumed" [Arg.s clusterName, Arg.s name],
        trace := [Event.ResumeConnector clusterName name,
          Event.echo "Connector %s:%s resumed" [Arg.s clusterName, Arg.s name]] }

/-- The body of `newConnectorRestartCommand` (connector_command.go, lines 504-515). -/
def connectorRestartRunE (client : ConnectorClient) (pr : Printer) (clusterName name : String) : Run :=
  match checkRequiredFlags [("clusterName", Value.str clusterName), ("name", Value.str name)] with
  | some err => { err := some err, trace := [] }
  | none =>
    match client.RestartConnector clusterName name with
    | some err =>
      { err := some err,
        trace := [Event.RestartConnector clusterName name,
          Event.setNotFoundMessage "unable to restart, connector '%s:%s' does not exist"
            [Arg.s clusterName, Arg.s name]] }
    | none =>
      { err := pr.echo "Connector %s:%s restarted" [Arg.s clusterName, Arg.s name],
        trace := [Event.RestartConnector clusterName name,
          Event.echo "Connector %s:%s restarted" [Arg.s clusterName, Arg.s name]] }

/-- The body of `newConnectorDeleteCommand` (connector_command.go, lines 654-665). -/
def connectorDeleteRunE (client : ConnectorClient) (pr : Printer) (clusterName name : String) : Run :=
  match checkRequiredFlags [("clusterName", Value.str clusterName), ("name", Value.str name)] with
  | some err => { err := some err, trace := [] }
  | none =>
    match client.DeleteConnector clusterName name with
    | some err =>
      { err := some err,
        trace := [Event.DeleteConnector clusterName name,
          Event.setNotFoundMessage "unable to delete, connector '%s:%s' does not exist"
            [Arg.s clusterName, Arg.s name]] }
    | none =>
      { err := pr.echo "Connector %s:%s deleted" [Arg.s clusterName, Arg.s name],
        trace := [Event.DeleteConnector clusterName name,
          Event.echo "Connector %s:%s deleted" [Arg.s clusterName, Arg.s name]] }

/-- Whether an event assigns the package-level `errResourceNotFoundMessage`. -/
def Event.isNotFoundHint : Event → Bool
  | Event.setNotFoundMessage _ _ => true
  | _ => false

/-- Whether an event writes informational or structured output. -/
def Event.isOutput : Event → Bool
  | Event.printJSON _ => true
  | Event.printObject _ => true
  | Event.echo _ _ => true
  | Event.stdout _ => true
  | _ => false

/-- The events of a run that precede its first remote call. -/
def beforeFirstCall (trace : List Event) : List Event :=
  trace.takeWhile fun ev => !ev.isRemote

/-- The text `fmt.Sprintf` renders for a format whose verbs are all `%s`, given
string operands. -/
def sprintfChars : List Char → List String → List Char
  | '%' :: 's' :: rest, a :: args => a.toList ++ sprintfChars rest args
  | c :: rest, args => c :: sprintfChars rest args
  | [], _ => []

/-- The call `fmt.Sprintf(format, args...)` for `%s` verbs and string operands. -/
def Sprintf (format : String) (args : List String) : String :=
  String.mk (sprintfChars format.toList args)

/-- A connector client whose calls all fail. -/
def failingConnectorOps : ConnectorClient :=
  { GetConnectorConfig := fun _ _ => .error (Error.other "not found"),
    GetConnectorStatus := fun _ _ => .error (Error.other "not found"),
    PauseConnector := fun _ _ => some (Error.other "not found"),
    ResumeConnector := fun _ _ => some (Error.other "not found"),
    RestartConnector := fun _ _ => some (Error.other "not found"),
    GetConnectorTasks := fun _ _ => .error (Error.other "not found"),
    DeleteConnector := fun _ _ => some (Error.other "not found") }

/-- A connect client that knows no connector at all. -/
def emptyConnectClient : ConnectClient :=
  { twoClusterClient with GetConnector := fun _ _ => .error (Error.other "not found") }

/-! ## `connectors clusters` -/

/-- The writers used besides `printJSON` and `echo`: `fmt.Fprintln` on the
command's standard output and `bite.PrintObject`; each may fail. -/
structure Output where
  Fprintln : String → Option Error
  PrintObject : Printable → Option Error

/-- The loop of `newGetConnectorsClustersCommand` (lines 174-181) from index `i`
on: each name is written to the builder `b`, followed by a line break unless
`noNewLine` is set or the index is the last one. `total` is `len(clusters)`. -/
def writeClusterNames (total : Nat) (noNewLine : Bool) :
    Nat → List ConnectCluster → String → String
  | _, [], b => b
  | i, cl :: rest, b =>
    let b := b ++ cl.Name
    let b := if !noNewLine ∧ (total : Int) - 1 ≠ (i : Int) then b ++ "\n" else b
    writeClusterNames total noNewLine (i + 1) rest b

/-- The body of `newGetConnectorsClustersCommand` (connector_command.go, lines
165-188). `Event.stdout` carries the text `Fprintln` writes: the operand and a
final line break. -/
def connectorsClustersRunE (client : ConnectClient) (pr : Printer) (out : Output)
    (namesOnly noNewLine : Bool) : Run :=
  match client.GetConnectClusters with
  | .error err => { err := some err, trace := [Event.GetConnectClusters] }
  | .ok clusters =>
    if namesOnly then
      let b := writeClusterNames clusters.length noNewLine 0 clusters ""
      { err := out.Fprintln b,
        trace := [Event.GetConnectClusters, Event.stdout (b ++ "\n")] }
    else
      { err := pr.printJSON (Printable.clusters clusters),
        trace := [Event.GetConnectClusters, Event.printJSON (Printable.clusters clusters)] }

/-- Writers that always succeed. -/
def okOutput : Output :=
  { Fprintln := fun _ => none, PrintObject := fun _ => none }

/-! ## `topics --names` and `topics keys` -/

/-- The remote client methods of the topic listing commands. -/
structure TopicsClient where
  GetTopicsNames : Except Error (List String)
  GetAvailableTopicConfigKeys : Except Error (List String)

/-- The call `sort.Strings`: the strings in increasing order. -/
def sortStrings (values : List String) : List String :=
  values.insertionSort (· ≤ ·)

/-- The `--names` branch of `NewTopicsGroupCommand` (commands.go, lines 34-50).
Each `Fprintln` writes its operand and a line break; its result is ignored. -/
def topicsNamesRunE (client : TopicsClient) (out : Output) (unwrap : Bool) : Run :=
  match client.GetTopicsNames with
  | .error err => { err := some err, trace := [Event.GetTopicsNames] }
  | .ok topicNames =>
    let topicNames := sortStrings topicNames
    if unwrap then
      { err := none,
        trace := Event.GetTopicsNames :: topicNames.map fun name => Event.stdout (name ++ "\n") }
    else
      { err := out.PrintObject (Printable.outlineStringResults "name" topicNames),
        trace := [Event.GetTopicsNames,
          Event.printObject (Printable.outlineStringResults "name" topicNames)] }

/-- The body of `NewGetAvailableTopicConfigKeysCommand` (commands.go, lines 93-110). -/
def topicsKeysRunE (client : TopicsClient) (out : Output) (unwrap : Bool) : Run :=
  match client.GetAvailableTopicConfigKeys with
  | .error err => { err := some err, trace := [Event.GetAvailableTopicConfigKeys] }
  | .ok keys =>
    let keys := sortStrings keys
    if unwrap then
      { err := none,
        trace := Event.GetAvailableTopicConfigKeys ::
          keys.map fun key => Event.stdout (key ++ "\n") }
    else
      { err := out.PrintObject (Printable.outlineStringResults "key" keys),
        trace := [Event.GetAvailableTopicConfigKeys,
          Event.printObject (Printable.outlineStringResults "key" keys)] }

/-- Whether an event hands a value to the table or JSON printer. -/
def Event.isPrinter : Event → Bool
  | Event.printJSON _ => true
  | Event.printObject _ => true
  | _ => false

/-- A topics client with three topic names and two config keys, unsorted. -/
def sampleTopicsClient : TopicsClient :=
  { GetTopicsNames := .ok ["orders", "audit", "logs"],
    GetAvailableTopicConfigKeys := .ok ["retention.ms", "cleanup.policy"] }

/-! ## `processors targets` -/

/-- The rows listed for one Kubernetes target: one per namespace, in order. -/
def kubernetesRows (t : KubernetesTarget) : List ListTargetsResult :=
  t.Namespaces.map fun ns =>
    { Kind := "Kubernetes", ClusterName := t.Cluster, Namespace := ns, Version := t.Version }

/-- The row listed for one Connect target; its namespace is empty. -/
def connectRow (c : KafkaConnectTarget) : ListTargetsResult :=
  { Kind := "Connect", ClusterName := c.Cluster, Namespace := "", Version := c.Version }

/-- Modelled from the spec: the `targets` subcommand of `NewGetProcessorsCommand`
(pkg/processor/commands.go) is run by the tests of commands_test.go but is not
among the given sources. Modelled from the behaviour stated for it: the rows of
the Kubernetes targets, one per namespace, then the rows of the Connect targets,
each in response order; `--target-type` (kubernetes or connect, empty for both)
keeps the rows of that type and `--cluster-name` (empty for all) the rows of
that cluster. -/
def listTargets (targets : DeploymentTargets) (targetType clusterName : String) :
    List ListTargetsResult :=
  (if targetType = "" ∨ targetType = "kubernetes" then
      ((targets.Kubernetes.filter fun t =>
        decide (clusterName = "" ∨ t.Cluster = clusterName)).map kubernetesRows).flatten
    else []) ++
  (if targetType = "" ∨ targetType = "connect" then
      (targets.Connect.filter fun c =>
        decide (clusterName = "" ∨ c.Cluster = clusterName)).map connectRow
    else [])

/-- Modelled from the spec: the run of `processors targets`, not among the given
sources: one `GetDeploymentTargets` call, whose listing is handed to the
printer. -/
def processorsTargetsRunE (getDeploymentTargets : Except Error DeploymentTargets)
    (out : Output) (targetType clusterName : String) : Run :=
  match getDeploymentTargets with
  | .error err => { err := some err, trace := [Event.GetDeploymentTargets] }
  | .ok targets =>
    { err := out.PrintObject (Printable.targets (listTargets targets targetType clusterName)),
      trace := [Event.GetDeploymentTargets,
        Event.printObject (Printable.targets (listTargets targets targetType clusterName))] }

/-- The fixture `targetList` of commands_test.go (lines 15-24). -/
def targetList : DeploymentTargets :=
  { Kubernetes :=
      [{ Cluster := "aks", Namespaces := ["prod"], Version := "1.0.0" },
       { Cluster := "eks", Namespaces := ["dev"], Version := "1.0.0" }],
    Connect := [{ Cluster := "my-kafka-connect", Version := "1.0.0" }] }

/-- The expected row `aksk8Res` of commands_test.go. -/
def aksk8Res : ListTargetsResult :=
  { Kind := "Kubernetes", ClusterName := "aks", Namespace := "prod", Version := "1.0.0" }

/-- The expected row `eksk8Res` of commands_test.go. -/
def eksk8Res : ListTargetsResult :=
  { Kind := "Kubernetes", ClusterName := "eks", Namespace := "dev", Version := "1.0.0" }

/-- The expected row `connectRes` of commands_test.go. -/
def connectRes : ListTargetsResult :=
  { Kind := "Connect", ClusterName := "my-kafka-connect", Namespace := "", Version := "1.0.0" }

/-! ## `topic delete` -/

/-- The remote client methods of `topic delete`. -/
structure TopicDeleteClient where
  DeleteTopic : String → Option Error
  DeleteTopicRecords : String → Int → Int → Option Error

/-- The body of `NewTopicDeleteCommand` (commands.go, lines 350-372).
`fromPartition` (Go `int`) and `toOffset` (Go `int64`) are the values of
`--partition` and `--offset`, both `-1` by default; only their sign is used. -/
def topicDeleteRunE (client : TopicDeleteClient) (pr : Printer) (topicName : String)
    (fromPartition toOffset : Int) : Run :=
  match checkRequiredFlags [("name", Value.str topicName)] with
  | some err => { err := some err, trace := [] }
  | none =>
    if fromPartition ≥ 0 ∧ toOffset ≥ 0 then
      match client.DeleteTopicRecords topicName fromPartition toOffset with
      | some err =>
        { err := some err,
          trace := [Event.DeleteTopicRecords topicName fromPartition toOffset,
            Event.logError "Failed to delete records topic [%s]. [%s]"
              [Arg.s topicName, Arg.e err]] }
      | none =>
        { err := pr.echo
            "Records from topic [%s] and partition [%d] up to offset [%d], are marked for deletion. This may take a few moments to have effect"
            [Arg.s topicName, Arg.i fromPartition, Arg.i toOffset],
          trace := [Event.DeleteTopicRecords topicName fromPartition toOffset,
            Event.echo
              "Records from topic [%s] and partition [%d] up to offset [%d], are marked for deletion. This may take a few moments to have effect"
              [Arg.s topicName, Arg.i fromPartition, Arg.i toOffset]] }
    else
      match client.DeleteTopic topicName with
      | some err =>
        { err := some err,
          trace := [Event.DeleteTopic topicName,
            Event.logError "Failed to delete topic [%s]. [%s]" [Arg.s topicName, Arg.e err]] }
      | none =>
        { err := pr.echo
            "Topic [%s] marked for deletion. This may take a few moments to have effect"
            [Arg.s topicName],
          trace := [Event.DeleteTopic topicName,
            Event.echo
              "Topic [%s] marked for deletion. This may take a few moments to have effect"
              [Arg.s topicName]] }

/-- A topic-delete client whose calls always succeed. -/
def okTopicDeleteClient : TopicDeleteClient :=
  { DeleteTopic := fun _ => none, DeleteTopicRecords := fun _ _ _ => none }

/-! ## `dataset update-description` and `dataset update-tags` -/

/-- The remote client methods of the dataset commands. -/
structure DatasetClient where
  UpdateDatasetDescription : String → String → String → Option Error
  UpdateDatasetTags : String → String → List String → Option Error

/-- The white space of `unicode.IsSpace`, which `strings.TrimSpace` cuts. -/
def isSpace (c : Char) : Bool :=
  let n := c.toNat
  (0x09 ≤ n ∧ n ≤ 0x0d) ∨ n = 0x20 ∨ n = 0x85 ∨ n = 0xa0 ∨ n = 0x1680 ∨
    (0x2000 ≤ n ∧ n ≤ 0x200a) ∨ n = 0x2028 ∨ n = 0x2029 ∨ n = 0x202f ∨ n = 0x205f ∨
    n = 0x3000

/-- The call `strings.TrimSpace`: the string without its leading and trailing
white space. -/
def TrimSpace (s : String) : String :=
  String.mk ((s.toList.dropWhile isSpace).reverse.dropWhile isSpace).reverse

/-- The body of `UpdateDatasetDescriptionCmd` (dataset/commands.go, lines 45-57). -/
def updateDatasetDescriptionRunE (client : DatasetClient) (pr : Printer)
    (connection name description : String) : Run :=
  if (TrimSpace description).length = 0 then
    { err := some (Error.new "--description value cannot be blank"),
      trace := [Event.logError "Failed to update dataset description. [%s]"
        [Arg.e (Error.new "--description value cannot be blank")]] }
  else
    match client.UpdateDatasetDescription connection name description with
    | some err =>
      { err := some err,
        trace := [Event.UpdateDatasetDescription connection name description,
          Event.logError "Failed to update dataset description. [%s]" [Arg.e err]] }
    | none =>
      { err := pr.echo "Dataset description has been updated successfully" [],
        trace := [Event.UpdateDatasetDescription connection name description,
          Event.echo "Dataset description has been updated successfully" []] }

/-- The body of `UpdateDatasetTagsCmd` (dataset/commands.go, lines 89-98). -/
def updateDatasetTagsRunE (client : DatasetClient) (pr : Printer)
    (connection name : String) (tags : List String) : Run :=
  if tags.length = 0 then
    { err := some (Error.new "Tags cannot be empty"), trace := [] }
  else
    match client.UpdateDatasetTags connection name tags with
    | some err =>
      { err := some err, trace := [Event.UpdateDatasetTags connection name tags] }
    | none =>
      { err := pr.echo "Dataset tags have been updated successfully" [],
        trace := [Event.UpdateDatasetTags connection name tags,
          Event.echo "Dataset tags have been updated successfully" []] }

/-- A dataset client whose calls always succeed. -/
def okDatasetClient : DatasetClient :=
  { UpdateDatasetDescription := fun _ _ _ => none, UpdateDatasetTags := fun _ _ _ => none }

/-! ## `dataset remove-description` and `dataset remove-tags` -/

/-- The body of `RemoveDatasetDescriptionCmd` (dataset/commands.go, lines 123-131).
The positional arguments `args` are not read. -/
def removeDatasetDescriptionRunE (client : DatasetClient) (pr : Printer)
    (connection name : String) (_args : List String) : Run :=
  match client.UpdateDatasetDescription connection name "" with
  | some err =>
    { err := some err, trace := [Event.UpdateDatasetDescription connection name ""] }
  | none =>
    { err := pr.echo "Dataset description has been removed" [],
      trace := [Event.UpdateDatasetDescription connection name "",
        Event.echo "Dataset description has been removed" []] }

/-- The body of `RemoveDatasetTagsCmd` (dataset/commands.go, lines 153-158). -/
def removeDatasetTagsRunE (client : DatasetClient) (pr : Printer)
    (connection name : String) (_args : List String) : Run :=
  match client.UpdateDatasetTags connection name [] with
  | some err => { err := some err, trace := [Event.UpdateDatasetTags connection name []] }
  | none =>
    { err := pr.echo "Dataset tags have been removed" [],
      trace := [Event.UpdateDatasetTags connection name [],
        Event.echo "Dataset tags have been removed" []] }

/-- A dataset client whose calls all fail. -/
def failingDatasetClient : DatasetClient :=
  { UpdateDatasetDescription := fun _ _ _ => some (Error.other "forbidden"),
    UpdateDatasetTags := fun _ _ _ => some (Error.other "forbidden") }

/-- A connect client whose connectors all carry the config name `other`. -/
def otherNameClient : ConnectClient :=
  { twoClusterClient with
    GetConnector := fun c n =>
      .ok { ClusterName := c, Name := n, Config := some [("name", Value.str "other")] } }

/-! ## `connectors plugins` -/

/-- The remote client methods of `connectors plugins`. -/
structure PluginsClient where
  GetConnectClusters : Except Error (List ConnectCluster)
  GetConnectorPlugins : String → Except Error (List ConnectorPlugin)

/-- The cluster loop of `newGetConnectorsPluginsCommand` (lines 122-128): one
`GetConnectorPlugins` call per cluster, appended in list order; the first failing
call ends the command. -/
def collectPlugins (client : PluginsClient) :
    List ConnectCluster → List ConnectorPlugin →
      Except Error (List ConnectorPlugin) × List Event
  | [], plugins => (.ok plugins, [])
  | cluster :: rest, plugins =>
    match client.GetConnectorPlugins cluster.Name with
    | .error err => (.error err, [Event.GetConnectorPlugins cluster.Name])
    | .ok clusterPlugins =>
      let r := collectPlugins client rest (plugins ++ clusterPlugins)
      (r.1, Event.GetConnectorPlugins cluster.Name :: r.2)

/-- The loop of lines 137-141, `for _, p := range plugins`. The loop variable `p`
is a copy of the slice element (the slice holds struct values), so the
assignment `p.Version = "X.X.X"` changes that copy only; the copy is dropped at
the end of the iteration and the slice `plugins` is left as it was. -/
def defaultVersions (plugins : List ConnectorPlugin) : List ConnectorPlugin :=
  plugins.foldl
    (fun plugins p =>
      let _p : ConnectorPlugin :=
        if p.Version = "null" ∨ p.Version = "" then { p with Version := "X.X.X" } else p
      plugins)
    plugins

/-- The body of `newGetConnectorsPluginsCommand` (connector_command.go, lines
112-144). -/
def connectorsPluginsRunE (client : PluginsClient) (pr : Printer) (clusterName : String) :
    Run :=
  let fetched : Except Error (List ConnectorPlugin) × List Event :=
    if clusterName = "*" then
      match client.GetConnectClusters with
      | .error err => (.error err, [Event.GetConnectClusters])
      | .ok clusters =>
        let r := collectPlugins client clusters []
        (r.1, Event.GetConnectClusters :: r.2)
    else
      match client.GetConnectorPlugins clusterName with
      | .error err => (.error err, [Event.GetConnectorPlugins clusterName])
      | .ok plugins => (.ok plugins, [Event.GetConnectorPlugins clusterName])
  match fetched.1 with
  | .error err => { err := some err, trace := fetched.2 }
  | .ok plugins =>
    let plugins := defaultVersions plugins
    { err := pr.printJSON (Printable.plugins plugins),
      trace := fetched.2 ++ [Event.printJSON (Printable.plugins plugins)] }

/-- A plugins client with one cluster `c` that lists three plugins: one of
version `null`, one of empty version, one of version `1.0.0`. -/
def samplePluginsClient : PluginsClient :=
  { GetConnectClusters := .ok [⟨"c"⟩],
    GetConnectorPlugins := fun _ =>
      .ok [{ Class := "io.sink", Kind := "sink", Version := "null" },
           { Class := "io.source", Kind := "source", Version := "" },
           { Class := "io.file", Kind := "source", Version := "1.0.0" }] }

/-! ## `alert setting` and `alert setting condition set` -/

/-- The remote client methods of the alert setting commands; the decoded setting
is kept as a map. -/
structure AlertClient where
  CreateOrUpdateAlertSettingCondition : Int → String → Option Error
  EnableAlertSetting : Int → Bool → Option Error
  GetAlertSetting : Int → Except Error KV

/-- The payload `SettingConditionPayloads` bound from a file. -/
structure SettingConditionPayloads where
  AlertID : Int
  Conditions : List String
  deriving DecidableEq, Repr

/-- The payload `SettingConditionPayload` bound from the flags or a file. -/
structure SettingConditionPayload where
  AlertID : Int
  Condition : String
  deriving DecidableEq, Repr

/-- The loop of `NewCreateOrUpdateAlertSettingConditionCommand` (lines 203-211):
each condition is submitted under `alertID`; a failing submission is logged and
its error returned at once; after a submission that succeeds the info message
is written, its result ignored. `soFar` is the trace so far. -/
def submitConditions (client : AlertClient) (alertID : Int) :
    List String → List Event → Run
  | [], soFar => { err := none, trace := soFar }
  | condition :: rest, soFar =>
    match client.CreateOrUpdateAlertSettingCondition alertID condition with
    | some err =>
      { err := some err,
        trace := soFar ++
          [Event.CreateOrUpdateAlertSettingCondition alertID condition,
           Event.logError "Failed to creating/updating alert setting condition [%s]. [%s]"
             [Arg.s condition, Arg.e err]] }
    | none =>
      submitConditions client alertID rest
        (soFar ++
          [Event.CreateOrUpdateAlertSettingCondition alertID condition,
           Event.echo "Condition [id=%d] added" [Arg.i alertID]])

/-- The body of `NewCreateOrUpdateAlertSettingConditionCommand` (alert/commands.go,
lines 199-224). `conds` and `cond` are the two payloads as the flags and the
bound file left them. -/
def alertConditionSetRunE (client : AlertClient) (pr : Printer)
    (conds : SettingConditionPayloads) (cond : SettingConditionPayload) : Run :=
  if conds.Conditions.length > 0 then
    submitConditions client conds.AlertID conds.Conditions []
  else
    match checkRequiredFlags
        [("alert", Value.int cond.AlertID), ("condition", Value.str cond.Condition)] with
    | some err => { err := some err, trace := [] }
    | none =>
      match client.CreateOrUpdateAlertSettingCondition cond.AlertID cond.Condition with
      | some err =>
        { err := some err,
          trace := [Event.CreateOrUpdateAlertSettingCondition cond.AlertID cond.Condition,
            Event.logError "Failed to creating/updating alert setting condition [%s]. [%s]"
              [Arg.s cond.Condition, Arg.e err]] }
      | none =>
        { err := pr.echo "Condition [id=%d] added" [Arg.i cond.AlertID],
          trace := [Event.CreateOrUpdateAlertSettingCondition cond.AlertID cond.Condition,
            Event.echo "Condition [id=%d] added" [Arg.i cond.AlertID]] }

/-- The body of `NewAlertSettingGroupCommand` (alert/commands.go, lines 103-123).
`enableChanged` is `cmd.Flags().Changed("enable")`: whether `--enable` was given
on the command line; `enable` is its value. -/
def alertSettingRunE (client : AlertClient) (pr : Printer) (out : Output) (id : Int)
    (enable enableChanged : Bool) : Run :=
  if enableChanged then
    match client.EnableAlertSetting id enable with
    | some err => { err := some err, trace := [Event.EnableAlertSetting id enable] }
    | none =>
      if enable then
        { err := pr.echo "Alert setting [%d] enabled" [Arg.i id],
          trace := [Event.EnableAlertSetting id enable,
            Event.echo "Alert setting [%d] enabled" [Arg.i id]] }
      else
        { err := pr.echo "Alert setting [%d] disabled" [Arg.i id],
          trace := [Event.EnableAlertSetting id enable,
            Event.echo "Alert setting [%d] disabled" [Arg.i id]] }
  else
    match client.GetAlertSetting id with
    | .error err =>
      { err := some err,
        trace := [Event.GetAlertSetting id,
          Event.logError "Failed to retrieve alert [%d]. [%s]" [Arg.i id, Arg.e err]] }
    | .ok settings =>
      { err := out.PrintObject (Printable.alertSetting settings),
        trace := [Event.GetAlertSetting id,
          Event.printObject (Printable.alertSetting settings)] }

/-- An alert client that accepts every condition but `bad`. -/
def sampleAlertClient : AlertClient :=
  { CreateOrUpdateAlertSettingCondition := fun _ condition =>
      if condition = "bad" then some (Error.other "rejected") else none,
    EnableAlertSetting := fun _ _ => none,
    GetAlertSetting := fun id => .ok [("id", Value.int id)] }

end Lenses

namespace Lenses

/-! ## Theorems -/

/-- C1: the required-flags check fails exactly when some value is the zero value
of its type, and its single error lists exactly the keys whose value is zero:
every such key, and no other. For the pairs clusterName and name, both empty, it
lists both; for a, b, c with only b set it lists a and c. -/
theorem checkRequiredFlags_lists_every_zero_key (nameValuePairs : flags) :
    ((checkRequiredFlags nameValuePairs).isSome ↔ ∃ p ∈ nameValuePairs, p.2.isZero = true) ∧
    (∀ err, checkRequiredFlags nameValuePairs = some err →
      ∃ names, err = Error.missingFlags names ∧
        ∀ k, k ∈ names ↔ ∃ v, (k, v) ∈ nameValuePairs ∧ v.isZero = true) ∧
    checkRequiredFlags [("clusterName", Value.str ""), ("name", Value.str "")]
      = some (Error.missingFlags ["clusterName", "name"]) ∧
    checkRequiredFlags [("a", Value.str ""), ("b", Value.str "x"), ("c", Value.str "")]
      = some (Error.missingFlags ["a", "c"]) := by
  refine ⟨?_, ?_, ?_, ?_⟩
  · unfold checkRequiredFlags
    by_cases h : (nameValuePairs.filter (fun p => p.2.isZero)).map Prod.fst = []
    · simp only [h, if_true, Option.isSome_none, Bool.false_eq_true, false_iff]
      rintro ⟨p, hp, hz⟩
      have : p ∈ nameValuePairs.filter (fun p => p.2.isZero) := List.mem_filter.mpr ⟨hp, hz⟩
      rw [List.map_eq_nil_iff] at h
      rw [h] at this
      exact List.not_mem_nil _ this
    · simp only [h, if_false, Option.isSome_some, true_iff]
      have h' : nameValuePairs.filter (fun p => p.2.isZero) ≠ [] := fun hh => h (by rw [hh]; rfl)
      obtain ⟨p, hp⟩ := List.exists_mem_of_ne_nil _ h'
      exact ⟨p, (List.mem_filter.mp hp).1, (List.mem_filter.mp hp).2⟩
  · intro err herr
    unfold checkRequiredFlags at herr
    by_cases h : (nameValuePairs.filter (fun p => p.2.isZero)).map Prod.fst = []
    · simp [h] at herr
    · simp only [h, if_false, Option.some.injEq] at herr
      refine ⟨_, herr.symm, ?_⟩
      intro k
      simp only [List.mem_map, List.mem_filter, Prod.exists, exists_and_right, exists_eq_right]
  · simp [checkRequiredFlags, Value.isZero]
  · simp [checkRequiredFlags, Value.isZero]

/-- C2: when the resolved topic name is empty, `topic create` returns the error
of the required-flags check on name, and its trace is empty: the `--configs`
value is not read and `CreateTopic` is not called, whatever the replication,
the partitions, the bound configs and the `--configs` value are. -/
theorem topicCreate_without_name_makes_no_call (client : TopicClient) (env : Helpers)
    (pr : Printer) (topic : CreateTopicPayload) (configsRaw : String)
    (hname : topic.TopicName = "") :
    (topicCreateRunE client env pr topic configsRaw).err
        = checkRequiredFlags [("name", Value.str topic.TopicName)] ∧
    (topicCreateRunE client env pr topic configsRaw).err = some (Error.missingFlags ["name"]) ∧
    (topicCreateRunE client env pr topic configsRaw).trace = [] := by
  simp [topicCreateRunE, checkRequiredFlags, Value.isZero, hname]

/-- Witness of C2: `topic create --replication=3 --partitions=5 --configs=...`
with no name. -/
theorem topicCreate_without_name_makes_no_call_witness :
    (({ TopicName := "", Replication := 3, Partitions := 5, Configs := [] } :
        CreateTopicPayload).TopicName = "") ∧
    (topicCreateRunE okTopicClient (inlineHelpers [("k", Value.str "v")]) okPrinter
        { TopicName := "", Replication := 3, Partitions := 5, Configs := [] } "x").err
        = some (Error.missingFlags ["name"]) ∧
    (topicCreateRunE okTopicClient (inlineHelpers [("k", Value.str "v")]) okPrinter
        { TopicName := "", Replication := 3, Partitions := 5, Configs := [] } "x").trace = [] :=
  ⟨rfl, (topicCreate_without_name_makes_no_call okTopicClient (inlineHelpers [("k", Value.str "v")])
    okPrinter { TopicName := "", Replication := 3, Partitions := 5, Configs := [] } "x" rfl).2⟩

/-- C3: in `connector create` and `connector update`, when loading the
positional file, reading the `--config` value, `ApplyAndValidateName` or the
required-flags check on clusterName and name fails, the command returns that
error and makes no remote call at all. When they all pass, `connector create`
makes exactly one remote call, `CreateConnector` with the resolved ClusterAlias,
Name and Config; `connector update` calls `GetConnector` once with the resolved
ClusterAlias and Name, followed by at most one `UpdateConnector` with the
resolved ClusterAlias, Name and Config, and nothing else. -/
theorem connector_commands_send_only_resolved_payload (client : ConnectClient) (env : Helpers)
    (pr : Printer) (silent : Bool) (clusterName name configRaw : String) (args : List String) :
    match resolveConnectorPayload env clusterName name configRaw args with
    | .error err =>
      (connectorCreateRunE client env pr silent clusterName name configRaw args).err = some err ∧
      (connectorCreateRunE client env pr silent clusterName name configRaw args).trace.filter
        Event.isRemote = [] ∧
      (connectorUpdateRunE client env pr silent clusterName name configRaw args).err = some err ∧
      (connectorUpdateRunE client env pr silent clusterName name configRaw args).trace.filter
        Event.isRemote = []
    | .ok connector =>
      (connectorCreateRunE client env pr silent clusterName name configRaw args).trace.filter
        Event.isRemote
        = [Event.CreateConnector connector.ClusterAlias connector.Name connector.Config] ∧
      ((connectorUpdateRunE client env pr silent clusterName name configRaw args).trace.filter
        Event.isRemote
        = [Event.GetConnector connector.ClusterAlias connector.Name] ∨
       (connectorUpdateRunE client env pr silent clusterName name configRaw args).trace.filter
        Event.isRemote
        = [Event.GetConnector connector.ClusterAlias connector.Name,
           Event.UpdateConnector connector.ClusterAlias connector.Name connector.Config]) := by
  unfold resolveConnectorPayload connectorCreateRunE connectorUpdateRunE connectorUpdateSend
  cases args with
  | nil =>
    rcases h1 : env.tryReadFile configRaw [] with ⟨_ | e, cfg⟩
    · simp only [h1]
      cases h2 : ApplyAndValidateName { ClusterAlias := clusterName, Name := name, Config := cfg } with
      | error e2 => simp [Event.isRemote]
      | ok c2 =>
        simp only []
        cases h3 : checkRequiredFlags
          [("clusterName", Value.str c2.ClusterAlias), ("name", Value.str c2.Name)] with
        | some e3 => simp [Event.isRemote]
        | none =>
          simp only []
          refine ⟨?_, ?_⟩
          · cases client.CreateConnector c2.ClusterAlias c2.Name c2.Config <;>
              cases silent <;> simp [Event.isRemote]
          · cases client.GetConnector c2.ClusterAlias c2.Name with
            | error e4 => simp [Event.isRemote]
            | ok ex =>
              simp only []
              cases ex.Config with
              | none =>
                cases client.UpdateConnector c2.ClusterAlias c2.Name c2.Config <;>
                  cases silent <;> simp [Event.isRemote]
              | some config =>
                simp only []
                split
                · simp [Event.isRemote]
                · cases client.UpdateConnector c2.ClusterAlias c2.Name c2.Config <;>
                    cases silent <;> simp [Event.isRemote]
    · simp [h1, Event.isRemote]
  | cons path rest =>
    simp only []
    cases h1 : env.loadFile path { ClusterAlias := clusterName, Name := name, Config := [] } with
    | error e1 => simp [Event.isRemote]
    | ok c1 =>
      simp only []
      cases h2 : ApplyAndValidateName c1 with
      | error e2 => simp [Event.isRemote]
      | ok c2 =>
        simp only []
        cases h3 : checkRequiredFlags
          [("clusterName", Value.str c2.ClusterAlias), ("name", Value.str c2.Name)] with
        | some e3 => simp [Event.isRemote]
        | none =>
          simp only []
          refine ⟨?_, ?_⟩
          · cases client.CreateConnector c2.ClusterAlias c2.Name c2.Config <;>
              cases silent <;> simp [Event.isRemote]
          · cases client.GetConnector c2.ClusterAlias c2.Name with
            | error e4 => simp [Event.isRemote]
            | ok ex =>
              simp only []
              cases ex.Config with
              | none =>
                cases client.UpdateConnector c2.ClusterAlias c2.Name c2.Config <;>
                  cases silent <;> simp [Event.isRemote]
              | some config =>
                simp only []
                split
                · simp [Event.isRemote]
                · cases client.UpdateConnector c2.ClusterAlias c2.Name c2.Config <;>
                    cases silent <;> simp [Event.isRemote]

/-- Counterexample to C4 as stated: `connector create` and `connector update` with
`--clusterName=a --name=mine` and a positional file that names its connector
`other`, at top level and in its config. The file's name overrides the flag on
the payload, the validation sees one name only, and both commands succeed under
the name `other`: the flag value is dropped without any error, and a connector
is created, respectively updated. -/
theorem connector_file_name_overrides_flag :
    connectorCreateRunE twoClusterClient
        (boundFileHelpers
          { ClusterAlias := none, Name := some "other",
            Config := some [("name", Value.str "other")] })
        okPrinter false "a" "mine" "" ["connector.yml"]
      = { err := none,
          trace := [Event.loadFile "connector.yml",
            Event.CreateConnector "a" "other" [("name", Value.str "other")],
            Event.echo "Connector %s created" [Arg.s "other"]] } ∧
    connectorUpdateRunE twoClusterClient
        (boundFileHelpers
          { ClusterAlias := none, Name := some "other",
            Config := some [("name", Value.str "other")] })
        okPrinter false "a" "mine" "" ["connector.yml"]
      = { err := none,
          trace := [Event.loadFile "connector.yml", Event.GetConnector "a" "other",
            Event.UpdateConnector "a" "other" [("name", Value.str "other")],
            Event.echo "Connector %s updated\n\n" [Arg.s "other"],
            Event.printJSON (Printable.connector
              { ClusterName := "a", Name := "other",
                Config := some [("name", Value.str "other")] })] } := by
  constructor <;>
    simp [connectorCreateRunE, connectorUpdateRunE, connectorUpdateSend, boundFileHelpers,
      bindFile, twoClusterClient, okPrinter, ApplyAndValidateName, GoMap.get, GoMap.set,
      checkRequiredFlags, Value.isZero]

/-- C4, amended: in `connector create` and `connector update` with a positional
file, when the payload loaded from the file still carries the non-empty,
explicitly given `--name` flag value as its Name and the config the file binds
has a name entry that differs from it, the command fails with the name-mismatch
error right after loading the file: neither name is picked, and no remote call
is made, so no connector is created or updated. This is the case of every file
that sets no name of its own and whose config carries such a name entry. -/
theorem connector_file_name_mismatch_is_rejected (client : ConnectClient) (env : Helpers)
    (pr : Printer) (silent : Bool) (clusterName name configRaw path : String)
    (rest : List String) (loaded : CreateUpdateConnectorPayload) (embedded : Value)
    (hname : name ≠ "")
    (hload : env.loadFile path { ClusterAlias := clusterName, Name := name, Config := [] }
      = .ok loaded)
    (hflag : loaded.Name = name)
    (hembedded : loaded.Config.get "name" = some embedded)
    (hdiff : embedded ≠ Value.str name) :
    connectorCreateRunE client env pr silent clusterName name configRaw (path :: rest)
      = { err := some (Error.nameMismatch (Value.str name) embedded),
          trace := [Event.loadFile path] } ∧
    connectorUpdateRunE client env pr silent clusterName name configRaw (path :: rest)
      = { err := some (Error.nameMismatch (Value.str name) embedded),
          trace := [Event.loadFile path] } ∧
    (∀ file config, file.Name = none → file.Config = some config →
      config.get "name" = some embedded →
      connectorCreateRunE client (boundFileHelpers file) pr silent clusterName name configRaw
          (path :: rest)
        = { err := some (Error.nameMismatch (Value.str name) embedded),
            trace := [Event.loadFile path] } ∧
      connectorUpdateRunE client (boundFileHelpers file) pr silent clusterName name configRaw
          (path :: rest)
        = { err := some (Error.nameMismatch (Value.str name) embedded),
            trace := [Event.loadFile path] }) := by
  have key : ∀ (env' : Helpers) (loaded' : CreateUpdateConnectorPayload),
      env'.loadFile path { ClusterAlias := clusterName, Name := name, Config := [] }
        = .ok loaded' →
      loaded'.Name = name → loaded'.Config.get "name" = some embedded →
      connectorCreateRunE client env' pr silent clusterName name configRaw (path :: rest)
        = { err := some (Error.nameMismatch (Value.str name) embedded),
            trace := [Event.loadFile path] } ∧
      connectorUpdateRunE client env' pr silent clusterName name configRaw (path :: rest)
        = { err := some (Error.nameMismatch (Value.str name) embedded),
            trace := [Event.loadFile path] } := by
    intro env' loaded' hload' hflag' hembedded'
    have hvalidate : ApplyAndValidateName loaded'
        = .error (Error.nameMismatch (Value.str name) embedded) := by
      simp [ApplyAndValidateName, hembedded', hflag', hname, hdiff]
    constructor
    · simp [connectorCreateRunE, hload', hvalidate]
    · simp [connectorUpdateRunE, hload', hvalidate]
  refine ⟨(key env loaded hload hflag hembedded).1, (key env loaded hload hflag hembedded).2, ?_⟩
  intro file config hfn hfc hentry
  exact key (boundFileHelpers file)
    (bindFile file { ClusterAlias := clusterName, Name := name, Config := [] }) rfl
    (by simp [bindFile, hfn]) (by simp [bindFile, hfc, hentry])

/-- Witness of C4, amended: `--name=mine` with a file that sets no name of its own
and whose config is named `other`. -/
theorem connector_file_name_mismatch_is_rejected_witness :
    ("mine" ≠ "" ∧ (Value.str "other") ≠ Value.str "mine") ∧
    connectorCreateRunE twoClusterClient (fileHelpers [("name", Value.str "other")]) okPrinter
        false "a" "mine" "" ["connector.yml"]
      = { err := some (Error.nameMismatch (Value.str "mine") (Value.str "other")),
          trace := [Event.loadFile "connector.yml"] } ∧
    connectorUpdateRunE twoClusterClient (fileHelpers [("name", Value.str "other")]) okPrinter
        false "a" "mine" "" ["connector.yml"]
      = { err := some (Error.nameMismatch (Value.str "mine") (Value.str "other")),
          trace := [Event.loadFile "connector.yml"] } :=
  ⟨⟨by decide, by decide⟩,
    (connector_file_name_mismatch_is_rejected twoClusterClient
      (fileHelpers [("name", Value.str "other")]) okPrinter false "a" "mine" "" "connector.yml" []
      { ClusterAlias := "a", Name := "mine", Config := [("name", Value.str "other")] }
      (Value.str "other") (by decide) rfl rfl (by decide) (by decide)).1,
    (connector_file_name_mismatch_is_rejected twoClusterClient
      (fileHelpers [("name", Value.str "other")]) okPrinter false "a" "mine" "" "connector.yml" []
      { ClusterAlias := "a", Name := "mine", Config := [("name", Value.str "other")] }
      (Value.str "other") (by decide) rfl rfl (by decide) (by decide)).2.1⟩

/-- C5: in `topic create` with a name that passes the required-flags check: for a
non-empty `--configs` value, if reading it as a file succeeds, `CreateTopic` is
called next with the configs the file decoded into; otherwise the value itself
is decoded as JSON and `CreateTopic` is called with the result; if both fail the
command returns the error "Unable to unmarshal the configs: [...]" around the
JSON error and `CreateTopic` is not called. With an empty `--configs` value
neither attempt is made and `CreateTopic` is the first step, with the configs
already bound on the payload. -/
theorem topicCreate_resolves_configs (client : TopicClient) (env : Helpers) (pr : Printer)
    (topic : CreateTopicPayload) (configsRaw : String) (hname : topic.TopicName ≠ "") :
    (configsRaw ≠ "" → ∀ configs, env.tryReadFile configsRaw topic.Configs = (none, configs) →
      (topicCreateRunE client env pr topic configsRaw).trace.take 2
        = [Event.tryReadFile configsRaw,
           Event.CreateTopic topic.TopicName topic.Replication topic.Partitions configs]) ∧
    (configsRaw ≠ "" → ∀ err configs parsed,
      env.tryReadFile configsRaw topic.Configs = (some err, configs) →
      env.jsonUnmarshal configsRaw configs = (none, parsed) →
      (topicCreateRunE client env pr topic configsRaw).trace.take 3
        = [Event.tryReadFile configsRaw, Event.jsonUnmarshal configsRaw,
           Event.CreateTopic topic.TopicName topic.Replication topic.Partitions parsed]) ∧
    (configsRaw ≠ "" → ∀ err configs err' configs',
      env.tryReadFile configsRaw topic.Configs = (some err, configs) →
      env.jsonUnmarshal configsRaw configs = (some err', configs') →
      topicCreateRunE client env pr topic configsRaw
        = { err := some (Error.wrapped "Unable to unmarshal the configs: [%v]" [] err'),
            trace := [Event.tryReadFile configsRaw, Event.jsonUnmarshal configsRaw] }) ∧
    (configsRaw = "" →
      (topicCreateRunE client env pr topic configsRaw).trace.take 1
        = [Event.CreateTopic topic.TopicName topic.Replication topic.Partitions topic.Configs]) := by
  have hcheck : checkRequiredFlags [("name", Value.str topic.TopicName)] = none := by
    simp [checkRequiredFlags, Value.isZero, hname]
  refine ⟨?_, ?_, ?_, ?_⟩
  · intro hraw configs hread
    cases h : client.CreateTopic topic.TopicName topic.Replication topic.Partitions configs <;>
      simp [topicCreateRunE, hcheck, hraw, hread, topicCreateSend, h]
  · intro hraw err configs parsed hread hjson
    cases h : client.CreateTopic topic.TopicName topic.Replication topic.Partitions parsed <;>
      simp [topicCreateRunE, hcheck, hraw, hread, hjson, topicCreateSend, h]
  · intro hraw err configs err' configs' hread hjson
    simp [topicCreateRunE, hcheck, hraw, hread, hjson]
  · intro hraw
    cases h : client.CreateTopic topic.TopicName topic.Replication topic.Partitions
        topic.Configs <;>
      simp [topicCreateRunE, hcheck, hraw, topicCreateSend, h]

/-- Witness of C5: `topic create --name=t --configs=...` with an inline value. -/
theorem topicCreate_resolves_configs_witness :
    ("t" ≠ "") ∧
    (topicCreateRunE okTopicClient (inlineHelpers [("k", Value.str "v")]) okPrinter
        { TopicName := "t", Replication := 1, Partitions := 1, Configs := [] }
        "inline").trace.take 3
      = [Event.tryReadFile "inline", Event.jsonUnmarshal "inline",
         Event.CreateTopic "t" 1 1 [("k", Value.str "v")]] :=
  ⟨by decide,
    (topicCreate_resolves_configs okTopicClient (inlineHelpers [("k", Value.str "v")]) okPrinter
      { TopicName := "t", Replication := 1, Partitions := 1, Configs := [] } "inline"
      (by decide)).2.1 (by decide) (Error.other "no such file") [] [("k", Value.str "v")] rfl rfl⟩

/-- C6, evaluated at its example: `topic update --name=topic1` with the inline
`--configs` value of the command's own usage example, which is no readable file
and decodes to the pairs key and value. The command succeeds, yet the single
config map given to `UpdateTopic` is the empty map bound on the payload; the
decoded pairs are not passed on. -/
theorem topicUpdate_drops_inline_configs :
    topicUpdateRunE okTopicClient
        (inlineHelpers [("key", Value.str "max.message.bytes"), ("value", Value.str "1000020")])
        okPrinter { TopicName := "topic1", Replication := 0, Partitions := 0, Configs := [] }
        inlineConfigsExample 0
      = { err := none,
          trace :=
            [Event.tryReadFile inlineConfigsExample,
             Event.jsonUnmarshal inlineConfigsExample,
             Event.UpdateTopic "topic1" [[]] 0,
             Event.echo "Config updated for topic [%s]" [Arg.s "topic1"]] } := by
  simp [topicUpdateRunE, checkRequiredFlags, Value.isZero, inlineHelpers, okTopicClient,
    okPrinter, inlineConfigsExample]

/-! ### Lemmas on Go maps and on the cluster loop -/

theorem flattenNames_foldl (entries : List (String × List String)) (init : List String) :
    entries.foldl (fun names e => names ++ e.2) init
      = init ++ (entries.map Prod.snd).flatten := by
  induction entries generalizing init with
  | nil => simp
  | cons e rest ih => simp [ih, List.append_assoc]

theorem flattenNames_eq (entries : List (String × List String)) :
    flattenNames entries = (entries.map Prod.snd).flatten := by
  simp [flattenNames, flattenNames_foldl]

theorem GoMap.appendAt_flatten_perm {V : Type} (m : GoMap (List V)) (k : String) (vs : List V) :
    ((m.appendAt k vs).map Prod.snd).flatten.Perm ((m.map Prod.snd).flatten ++ vs) := by
  induction m with
  | nil => simp [GoMap.appendAt, GoMap.set, GoMap.get]
  | cons e rest ih =>
    obtain ⟨k', v'⟩ := e
    by_cases h : k' = k
    · simp only [GoMap.appendAt, GoMap.set, GoMap.get, h, if_true, Option.getD_some,
        List.map_cons, List.flatten_cons]
      rw [List.append_assoc, List.append_assoc]
      exact List.Perm.append_left _ List.perm_append_comm
    · simp only [GoMap.appendAt, GoMap.set, GoMap.get, h, if_false, List.map_cons,
        List.flatten_cons]
      rw [List.append_assoc]
      exact List.Perm.append_left _ ih

theorem collectNames_abort (client : ConnectClient) (pre post : List ConnectCluster)
    (cluster : ConnectCluster) (err : Error)
    (hpre : ∀ c ∈ pre, ∃ names, client.GetConnectors c.Name = .ok names)
    (hfail : client.GetConnectors cluster.Name = .error err) (m : GoMap (List String)) :
    collectNames client (pre ++ cluster :: post) m
      = (.error err, (pre ++ [cluster]).map (fun c => Event.GetConnectors c.Name)) := by
  induction pre generalizing m with
  | nil => simp [collectNames, hfail]
  | cons c rest ih =>
    obtain ⟨names, hnames⟩ := hpre c (List.mem_cons_self _ _)
    have ih' := ih (fun c' hc' => hpre c' (List.mem_cons_of_mem _ hc'))
      (m.appendAt c.Name names)
    simp [collectNames, hnames, ih']

theorem collectNames_perm (client : ConnectClient) (names : String → List String)
    (clusters : List ConnectCluster)
    (hok : ∀ c ∈ clusters, client.GetConnectors c.Name = .ok (names c.Name))
    (m : GoMap (List String)) :
    ∃ m', (collectNames client clusters m).1 = .ok m' ∧
      (m'.map Prod.snd).flatten.Perm
        ((m.map Prod.snd).flatten ++ (clusters.map (fun c => names c.Name)).flatten) := by
  induction clusters generalizing m with
  | nil => exact ⟨m, by simp [collectNames]⟩
  | cons c rest ih =>
    obtain ⟨m', hm', hperm⟩ := ih (fun c' hc' => hok c' (List.mem_cons_of_mem _ hc'))
      (m.appendAt c.Name (names c.Name))
    refine ⟨m', by simp [collectNames, hok c (List.mem_cons_self _ _), hm'], ?_⟩
    refine hperm.trans ?_
    simp only [List.map_cons, List.flatten_cons, ← List.append_assoc]
    exact List.Perm.append_right _ (GoMap.appendAt_flatten_perm m c.Name (names c.Name))

theorem GoMap.get_of_not_mem_keys {V : Type} (m : GoMap V) (k : String) (h : k ∉ m.keys) :
    m.get k = none := by
  induction m with
  | nil => rfl
  | cons e rest ih =>
    obtain ⟨k', v'⟩ := e
    simp only [GoMap.keys, List.map_cons, List.mem_cons, not_or] at h
    have hne : ¬ k' = k := fun hh => h.1 hh.symm
    simp only [GoMap.get, hne, if_false]
    exact ih h.2

theorem GoMap.set_of_not_mem_keys {V : Type} (m : GoMap V) (k : String) (v : V)
    (h : k ∉ m.keys) : m.set k v = m ++ [(k, v)] := by
  induction m with
  | nil => rfl
  | cons e rest ih =>
    obtain ⟨k', v'⟩ := e
    simp only [GoMap.keys, List.map_cons, List.mem_cons, not_or] at h
    have hne : ¬ k' = k := fun hh => h.1 hh.symm
    simp only [GoMap.set, hne, if_false, List.cons_append]
    rw [ih h.2]

theorem collectNames_distinct (client : ConnectClient) (names : String → List String)
    (clusters : List ConnectCluster)
    (hok : ∀ c ∈ clusters, client.GetConnectors c.Name = .ok (names c.Name))
    (hnodup : (clusters.map (fun c => c.Name)).Nodup)
    (m : GoMap (List String)) (hfresh : ∀ c ∈ clusters, c.Name ∉ m.keys) :
    (collectNames client clusters m).1
      = .ok (m ++ clusters.map (fun c => (c.Name, names c.Name))) := by
  induction clusters generalizing m with
  | nil => simp [collectNames]
  | cons c rest ih =>
    have hc := hfresh c (List.mem_cons_self _ _)
    rw [List.map_cons, List.nodup_cons] at hnodup
    have hstep : m.appendAt c.Name (names c.Name) = m ++ [(c.Name, names c.Name)] := by
      simp [GoMap.appendAt, GoMap.get_of_not_mem_keys m c.Name hc,
        GoMap.set_of_not_mem_keys m c.Name _ hc]
    have ih' := ih (fun c' hc' => hok c' (List.mem_cons_of_mem _ hc')) hnodup.2
      (m ++ [(c.Name, names c.Name)]) (by
        intro c' hc' hmem
        simp only [GoMap.keys, List.map_append, List.map_cons, List.map_nil, List.mem_append,
          List.mem_singleton] at hmem
        rcases hmem with hmem | hmem
        · exact hfresh c' (List.mem_cons_of_mem _ hc') hmem
        · exact hnodup.1 (hmem ▸ List.mem_map_of_mem (fun c => c.Name) hc'))
    simp [collectNames, hok c (List.mem_cons_self _ _), hstep, ih']

/-! ### Lemmas on the detail loop -/

theorem GoMap.get_set {V : Type} (m : GoMap V) (k k' : String) (v : V) :
    (m.set k v).get k' = if k' = k then some v else m.get k' := by
  induction m with
  | nil =>
    by_cases h : k' = k
    · simp [GoMap.set, GoMap.get, h]
    · have h' : ¬ k = k' := fun hh => h hh.symm
      simp [GoMap.set, GoMap.get, h, h']
  | cons e rest ih =>
    obtain ⟨k0, v0⟩ := e
    by_cases h0 : k0 = k
    · subst h0
      by_cases h : k' = k0
      · simp [GoMap.set, GoMap.get, h]
      · have h' : ¬ k0 = k' := fun hh => h hh.symm
        simp [GoMap.set, GoMap.get, h, h']
    · by_cases h : k0 = k'
      · subst h
        simp [GoMap.set, GoMap.get, h0]
      · simp [GoMap.set, GoMap.get, h0, h, ih]

theorem GoMap.set_set {V : Type} (m : GoMap V) (k : String) (v v' : V) :
    (m.set k v).set k v' = m.set k v' := by
  induction m with
  | nil => simp [GoMap.set]
  | cons e rest ih =>
    obtain ⟨k0, v0⟩ := e
    by_cases h0 : k0 = k
    · simp [GoMap.set, h0]
    · simp [GoMap.set, h0, ih]

theorem GoMap.appendAt_appendAt {V : Type} (m : GoMap (List V)) (k : String) (xs ys : List V) :
    (m.appendAt k xs).appendAt k ys = m.appendAt k (xs ++ ys) := by
  simp [GoMap.appendAt, GoMap.get_set, GoMap.set_set, List.append_assoc]

theorem GoMap.mem_keys_set {V : Type} (m : GoMap V) (k x : String) (v : V) :
    x ∈ (m.set k v).keys ↔ x = k ∨ x ∈ m.keys := by
  induction m with
  | nil => simp [GoMap.set, GoMap.keys]
  | cons e rest ih =>
    obtain ⟨k0, v0⟩ := e
    by_cases h0 : k0 = k
    · simp [GoMap.set, GoMap.keys, h0]
    · simp only [GoMap.keys] at ih
      simp only [GoMap.set, GoMap.keys, h0, if_false, List.map_cons, List.mem_cons, ih]
      tauto

theorem GoMap.nodup_keys_set {V : Type} (m : GoMap V) (k : String) (v : V)
    (h : m.keys.Nodup) : (m.set k v).keys.Nodup := by
  induction m with
  | nil => simp [GoMap.set, GoMap.keys]
  | cons e rest ih =>
    obtain ⟨k0, v0⟩ := e
    have h' : k0 ∉ GoMap.keys rest ∧ (GoMap.keys rest).Nodup := by
      simpa [GoMap.keys] using h
    by_cases h0 : k0 = k
    · subst h0
      simpa [GoMap.set, GoMap.keys] using h
    · have hk : k0 ∉ (GoMap.set rest k v).keys := by
        rw [GoMap.mem_keys_set]
        rintro (hh | hh)
        · exact h0 hh
        · exact h'.1 hh
      have := ih h'.2
      simp only [GoMap.keys] at this hk
      simp [GoMap.set, GoMap.keys, h0, this, hk]

theorem GoMap.get_eq_some_iff {V : Type} (m : GoMap V) (h : m.keys.Nodup) (k : String) (v : V) :
    m.get k = some v ↔ (k, v) ∈ m := by
  induction m with
  | nil => simp [GoMap.get]
  | cons e rest ih =>
    obtain ⟨k0, v0⟩ := e
    have h' : k0 ∉ GoMap.keys rest ∧ (GoMap.keys rest).Nodup := by
      simpa [GoMap.keys] using h
    by_cases h0 : k0 = k
    · subst h0
      have hnot : (k0, v) ∉ rest := fun hm =>
        h'.1 (List.mem_map_of_mem Prod.fst hm)
      simp only [GoMap.get, if_true, Option.some.injEq, List.mem_cons, Prod.mk.injEq, true_and,
        hnot, or_false]
      exact eq_comm
    · have h0' : ¬ k = k0 := fun hh => h0 hh.symm
      simp [GoMap.get, h0, h0', ih h'.2]

theorem GoMap.get_perm {V : Type} (m m' : GoMap V) (h : m.keys.Nodup) (hp : m'.Perm m)
    (k : String) : m'.get k = m.get k := by
  have h' : m'.keys.Nodup := ((hp.map Prod.fst).nodup_iff).mpr h
  apply Option.ext
  intro v
  simp only [Option.mem_def]
  rw [GoMap.get_eq_some_iff m' h', GoMap.get_eq_some_iff m h]
  exact hp.mem_iff

theorem collectNames_nodup_keys (client : ConnectClient) (clusters : List ConnectCluster)
    (m m' : GoMap (List String)) (h : m.keys.Nodup)
    (hm' : (collectNames client clusters m).1 = .ok m') : m'.keys.Nodup := by
  induction clusters generalizing m with
  | nil =>
    simp only [collectNames, Except.ok.injEq] at hm'
    exact hm' ▸ h
  | cons c rest ih =>
    cases hc : client.GetConnectors c.Name with
    | error e => simp [collectNames, hc] at hm'
    | ok ns =>
      simp only [collectNames, hc] at hm'
      exact ih _ (GoMap.nodup_keys_set m _ _ h) hm'

theorem fetchNames_nodup_keys (client : ConnectClient) (clusterName : String)
    (m : GoMap (List String)) (hm : (fetchNames client clusterName).1 = .ok m) :
    m.keys.Nodup := by
  unfold fetchNames at hm
  split at hm
  · cases hc : client.GetConnectClusters with
    | error e => simp [hc] at hm
    | ok clusters =>
      simp only [hc] at hm
      exact collectNames_nodup_keys client clusters [] m (by simp [GoMap.keys]) hm
  · cases hc : client.GetConnectors clusterName with
    | error e => simp [hc] at hm
    | ok ns =>
      simp only [hc, Except.ok.injEq] at hm
      subst hm
      simp [GoMap.set, GoMap.keys]

theorem fetchCluster_connectors (client : ConnectClient) (cluster : String)
    (names : List String) (acc : Details) :
    (fetchCluster client cluster names acc).connectors
      = if fetchedOk client cluster names = [] then acc.connectors
        else acc.connectors.appendAt cluster (fetchedOk client cluster names) := by
  induction names generalizing acc with
  | nil => simp [fetchCluster, fetchedOk]
  | cons name rest ih =>
    cases hc : client.GetConnector cluster name with
    | error e =>
      have hf : fetchedOk client cluster (name :: rest) = fetchedOk client cluster rest := by
        simp [fetchedOk, List.filterMap_cons, hc]
      simp only [fetchCluster, hc, hf, ih]
    | ok connector =>
      have hf : fetchedOk client cluster (name :: rest)
          = connector :: fetchedOk client cluster rest := by
        simp [fetchedOk, List.filterMap_cons, hc]
      simp only [fetchCluster, hc, hf, ih, GoMap.appendAt_appendAt]
      by_cases hr : fetchedOk client cluster rest = []
      · simp [hr]
      · simp [hr]

theorem fetchCluster_get (client : ConnectClient) (cluster : String)
    (names : List String) (acc : Details) (k : String) :
    (fetchCluster client cluster names acc).connectors.get k
      = if k = cluster ∧ fetchedOk client cluster names ≠ [] then
          some ((acc.connectors.get cluster).getD [] ++ fetchedOk client cluster names)
        else acc.connectors.get k := by
  rw [fetchCluster_connectors]
  by_cases hf : fetchedOk client cluster names = []
  · simp [hf]
  · by_cases hk : k = cluster
    · simp [hf, hk, GoMap.appendAt, GoMap.get_set]
    · simp [hf, hk, GoMap.appendAt, GoMap.get_set]

theorem fetchDetails_get (client : ConnectClient) (entries : List (String × List String))
    (hnodup : (GoMap.keys entries).Nodup) (acc : Details)
    (hacc : ∀ k ∈ GoMap.keys entries, acc.connectors.get k = none) (k : String) :
    (fetchDetails client entries acc).connectors.get k
      = match GoMap.get entries k with
        | none => acc.connectors.get k
        | some names =>
          if fetchedOk client k names = [] then none else some (fetchedOk client k names) := by
  induction entries generalizing acc with
  | nil => simp [fetchDetails, GoMap.get]
  | cons e rest ih =>
    obtain ⟨cluster, names⟩ := e
    have h' : cluster ∉ GoMap.keys rest ∧ (GoMap.keys rest).Nodup := by
      simpa [GoMap.keys] using hnodup
    have hacc0 : acc.connectors.get cluster = none :=
      hacc cluster (by simp [GoMap.keys])
    have hacc' : ∀ k ∈ GoMap.keys rest,
        (fetchCluster client cluster names acc).connectors.get k = none := by
      intro k hk
      have hne : ¬ k = cluster := fun hh => h'.1 (hh ▸ hk)
      rw [fetchCluster_get]
      simp only [hne, false_and, if_false]
      exact hacc k (by simp only [GoMap.keys, List.map_cons, List.mem_cons]; exact Or.inr hk)
    rw [fetchDetails, ih h'.2 _ hacc']
    by_cases hk : cluster = k
    · subst hk
      rw [GoMap.get_of_not_mem_keys rest cluster h'.1]
      simp only [GoMap.get, if_true]
      rw [fetchCluster_get, hacc0]
      by_cases hf : fetchedOk client cluster names = []
      · simp [hf, hacc0]
      · simp [hf]
    · have hk' : ¬ k = cluster := fun hh => hk hh.symm
      simp only [GoMap.get, hk, if_false]
      cases hr : GoMap.get rest k with
      | none =>
        simp only []
        rw [fetchCluster_get]
        simp [hk']
      | some ns => rfl

/-! ### The `connectors` command -/

theorem fetchNames_star (client : ConnectClient) (clusters : List ConnectCluster)
    (hclusters : client.GetConnectClusters = .ok clusters) :
    fetchNames client "*"
      = ((collectNames client clusters []).1,
         Event.GetConnectClusters :: (collectNames client clusters []).2) := by
  simp [fetchNames, hclusters]

theorem Run.printed_concat (err : Option Error) (evs : List Event) (v : Printable) :
    Run.printed { err := err, trace := evs ++ [Event.printJSON v] } = some v := by
  simp [Run.printed]

/-- Counterexample to C7 as stated: cluster `a` lists its connector, the listing
of cluster `b` fails. The command aborts with that error right after the failing
call and hands nothing to the printer; the name of cluster `a` is not returned. -/
theorem connectors_names_partial_failure_aborts :
    failingClusterClient.GetConnectors "a" = .ok ["x"] ∧
    connectorsRunE failingClusterClient okPrinter id "*" true
      = { err := some (Error.other "unreachable"),
          trace := [Event.GetConnectClusters, Event.GetConnectors "a",
            Event.GetConnectors "b"] } ∧
    (connectorsRunE failingClusterClient okPrinter id "*" true).printed = none := by
  refine ⟨rfl, ?_, ?_⟩ <;>
    simp [connectorsRunE, fetchNames, collectNames, failingClusterClient, twoClusterClient,
      Run.printed]

/-- C7, amended: in `connectors --clusterName="*" --names`, when the names listing
of some cluster fails, the command aborts at the first failing cluster in the
order returned by `GetConnectClusters`: it returns that cluster's error, has
called `GetConnectors` for the clusters up to and including it and for no later
one, and hands nothing to the printer, whichever cluster it is that failed. -/
theorem connectors_names_abort_at_first_failing_cluster (client : ConnectClient)
    (pr : Printer) (rangeOrder : GoMap (List String) → List (String × List String))
    (pre post : List ConnectCluster) (cluster : ConnectCluster) (err : Error)
    (hclusters : client.GetConnectClusters = .ok (pre ++ cluster :: post))
    (hpre : ∀ c ∈ pre, ∃ names, client.GetConnectors c.Name = .ok names)
    (hfail : client.GetConnectors cluster.Name = .error err) :
    connectorsRunE client pr rangeOrder "*" true
      = { err := some err,
          trace := Event.GetConnectClusters ::
            (pre ++ [cluster]).map (fun c => Event.GetConnectors c.Name) } := by
  simp only [connectorsRunE, fetchNames_star client _ hclusters,
    collectNames_abort client pre post cluster err hpre hfail]

/-- Witness of C7, amended: clusters `a`, `b` with the listing of `b` failing. -/
theorem connectors_names_abort_at_first_failing_cluster_witness :
    connectorsRunE failingClusterClient okPrinter id "*" true
      = { err := some (Error.other "unreachable"),
          trace := Event.GetConnectClusters ::
            ([ConnectCluster.mk "a"] ++ [ConnectCluster.mk "b"]).map
              (fun c => Event.GetConnectors c.Name) } :=
  connectors_names_abort_at_first_failing_cluster failingClusterClient okPrinter id
    [⟨"a"⟩] [] ⟨"b"⟩ (Error.other "unreachable") rfl
    (by intro c hc; simp at hc; subst hc; exact ⟨["x"], rfl⟩) rfl

/-- C8: in `connectors --clusterName="*" --names`, when `GetConnectClusters` and
every `GetConnectors` call succeed, the names handed to the printer are a
permutation of the concatenation of the per-cluster name lists, whatever order
the range over the map takes, so their number is the sum of the per-cluster
sizes. No distinctness of the cluster names is assumed: the lists of two
clusters of the same name are appended under that name, none is overwritten. -/
theorem connectors_names_permutation_of_all (client : ConnectClient) (pr : Printer)
    (rangeOrder : GoMap (List String) → List (String × List String))
    (clusters : List ConnectCluster) (names : String → List String)
    (hclusters : client.GetConnectClusters = .ok clusters)
    (hok : ∀ c ∈ clusters, client.GetConnectors c.Name = .ok (names c.Name))
    (hrange : ∀ m, (rangeOrder m).Perm m) :
    ∃ printed,
      (connectorsRunE client pr rangeOrder "*" true).printed
        = some (Printable.outlineStringResults "name" printed) ∧
      printed.Perm (clusters.map (fun c => names c.Name)).flatten ∧
      printed.length = (clusters.map (fun c => (names c.Name).length)).sum := by
  obtain ⟨m', hm', hperm⟩ := collectNames_perm client names clusters hok []
  have hp : (flattenNames (rangeOrder m')).Perm
      (clusters.map (fun c => names c.Name)).flatten := by
    rw [flattenNames_eq]
    refine (((hrange m').map Prod.snd).flatten).trans ?_
    simpa using hperm
  refine ⟨flattenNames (rangeOrder m'), ?_, hp, ?_⟩
  · simp only [connectorsRunE, fetchNames_star client _ hclusters, hm', if_true]
    exact Run.printed_concat _ _ _
  · rw [hp.length_eq, List.length_flatten, List.map_map]
    rfl

/-- Witness of C8: three clusters of sizes 2, 0, 1 give three names; with a
fourth cluster that repeats the name of the first, five. The range visits the
map in reverse. -/
theorem connectors_names_permutation_of_all_witness :
    (∃ printed,
      (connectorsRunE threeClusterClient okPrinter List.reverse "*" true).printed
        = some (Printable.outlineStringResults "name" printed) ∧
      printed.length = 3) ∧
    (∃ printed,
      (connectorsRunE sizedClient okPrinter List.reverse "*" true).printed
        = some (Printable.outlineStringResults "name" printed) ∧
      printed.length = 5) := by
  constructor
  · obtain ⟨printed, hprinted, _, hlen⟩ :=
      connectors_names_permutation_of_all threeClusterClient okPrinter List.reverse
        [⟨"c1"⟩, ⟨"c2"⟩, ⟨"c3"⟩] sizedNames rfl (fun _ _ => rfl)
        (fun m => List.reverse_perm m)
    exact ⟨printed, hprinted, by simpa [sizedNames] using hlen⟩
  · obtain ⟨printed, hprinted, _, hlen⟩ :=
      connectors_names_permutation_of_all sizedClient okPrinter List.reverse
        [⟨"c1"⟩, ⟨"c2"⟩, ⟨"c3"⟩, ⟨"c1"⟩] sizedNames rfl (fun _ _ => rfl)
        (fun m => List.reverse_perm m)
    exact ⟨printed, hprinted, by simpa [sizedNames] using hlen⟩


/-- Counterexample to C9 as stated: clusters `a` (connector `x`) and `b`
(connector `y`), all calls succeeding. A run whose range over the map meets `b`
first hands `y, x` to the printer, not the concatenation `x, y` in cluster
order; a run that meets `a` first hands over `x, y`, so two runs on the same
responses differ. -/
theorem connectors_names_order_not_fixed :
    twoClusterClient.GetConnectClusters = .ok [ConnectCluster.mk "a", ConnectCluster.mk "b"] ∧
    ([ConnectCluster.mk "a", ConnectCluster.mk "b"].map
      (fun c => twoClusterNames c.Name)).flatten = ["x", "y"] ∧
    (connectorsRunE twoClusterClient okPrinter List.reverse "*" true).printed
      = some (Printable.outlineStringResults "name" ["y", "x"]) ∧
    (connectorsRunE twoClusterClient okPrinter id "*" true).printed
      = some (Printable.outlineStringResults "name" ["x", "y"]) ∧
    (connectorsRunE twoClusterClient okPrinter List.reverse "*" true).printed
      ≠ (connectorsRunE twoClusterClient okPrinter id "*" true).printed := by
  have h1 : (connectorsRunE twoClusterClient okPrinter List.reverse "*" true).printed
      = some (Printable.outlineStringResults "name" ["y", "x"]) := by
    simp [connectorsRunE, fetchNames, collectNames, twoClusterClient, twoClusterNames, Run.printed,
      GoMap.appendAt, GoMap.set, GoMap.get, flattenNames]
  have h2 : (connectorsRunE twoClusterClient okPrinter id "*" true).printed
      = some (Printable.outlineStringResults "name" ["x", "y"]) := by
    simp [connectorsRunE, fetchNames, collectNames, twoClusterClient, twoClusterNames, Run.printed,
      GoMap.appendAt, GoMap.set, GoMap.get, flattenNames]
  refine ⟨rfl, by simp [twoClusterNames], h1, h2, ?_⟩
  rw [h1, h2]
  decide

/-- C9, amended: in `connectors --clusterName="*" --names`, when all calls
succeed: if the cluster names are pairwise distinct, the names handed to the
printer are the concatenation of the per-cluster name lists in the order in
which the range over the map visits the clusters, each once, in an order Go
leaves unspecified; they are the concatenation in the order `GetConnectClusters`
returned the clusters when the range visits them in that order. Two runs on the
same remote responses, whatever their visiting orders and whether or not
cluster names repeat, hand over the same names as a multiset, not necessarily
the same sequence. -/
theorem connectors_names_in_visiting_order (client : ConnectClient) (pr : Printer)
    (rangeOrder rangeOrder' : GoMap (List String) → List (String × List String))
    (clusters : List ConnectCluster) (names : String → List String)
    (hclusters : client.GetConnectClusters = .ok clusters)
    (hok : ∀ c ∈ clusters, client.GetConnectors c.Name = .ok (names c.Name))
    (hrange : ∀ m, (rangeOrder m).Perm m) (hrange' : ∀ m, (rangeOrder' m).Perm m) :
    ((clusters.map (fun c => c.Name)).Nodup →
      (rangeOrder (clusters.map (fun c => (c.Name, names c.Name)))).Perm
        (clusters.map (fun c => (c.Name, names c.Name))) ∧
      (connectorsRunE client pr rangeOrder "*" true).printed
        = some (Printable.outlineStringResults "name"
            ((rangeOrder (clusters.map (fun c => (c.Name, names c.Name)))).map
              Prod.snd).flatten)) ∧
    ((clusters.map (fun c => c.Name)).Nodup →
      rangeOrder (clusters.map (fun c => (c.Name, names c.Name)))
        = clusters.map (fun c => (c.Name, names c.Name)) →
      (connectorsRunE client pr rangeOrder "*" true).printed
        = some (Printable.outlineStringResults "name"
            (clusters.map (fun c => names c.Name)).flatten)) ∧
    (∃ printed printed',
      (connectorsRunE client pr rangeOrder "*" true).printed
        = some (Printable.outlineStringResults "name" printed) ∧
      (connectorsRunE client pr rangeOrder' "*" true).printed
        = some (Printable.outlineStringResults "name" printed') ∧
      printed.Perm printed') := by
  have hvisit : (clusters.map (fun c => c.Name)).Nodup →
      (connectorsRunE client pr rangeOrder "*" true).printed
        = some (Printable.outlineStringResults "name"
            ((rangeOrder (clusters.map (fun c => (c.Name, names c.Name)))).map
              Prod.snd).flatten) := by
    intro hnodup
    have hm := collectNames_distinct client names clusters hok hnodup []
      (fun _ _ h => by simp [GoMap.keys] at h)
    simp only [List.nil_append] at hm
    simp only [connectorsRunE, fetchNames_star client _ hclusters, hm, if_true,
      flattenNames_eq]
    exact Run.printed_concat _ _ _
  refine ⟨fun hnodup => ⟨hrange _, hvisit hnodup⟩, ?_, ?_⟩
  · intro hnodup hsame
    rw [hvisit hnodup, hsame, List.map_map]
    rfl
  · obtain ⟨m, hm, _⟩ := collectNames_perm client names clusters hok []
    refine ⟨flattenNames (rangeOrder m), flattenNames (rangeOrder' m), ?_, ?_, ?_⟩
    · simp only [connectorsRunE, fetchNames_star client _ hclusters, hm, if_true]
      exact Run.printed_concat _ _ _
    · simp only [connectorsRunE, fetchNames_star client _ hclusters, hm, if_true]
      exact Run.printed_concat _ _ _
    · rw [flattenNames_eq, flattenNames_eq]
      exact (((hrange m).map Prod.snd).flatten).trans
        (((hrange' m).map Prod.snd).flatten).symm

/-- Witness of C9, amended: clusters `a`, `b`; one run ranges over the map in
insertion order, the other in reverse. -/
theorem connectors_names_in_visiting_order_witness :
    (connectorsRunE twoClusterClient okPrinter id "*" true).printed
      = some (Printable.outlineStringResults "name"
          ([ConnectCluster.mk "a", ConnectCluster.mk "b"].map
            (fun c => twoClusterNames c.Name)).flatten) ∧
    (∃ printed printed',
      (connectorsRunE twoClusterClient okPrinter id "*" true).printed
        = some (Printable.outlineStringResults "name" printed) ∧
      (connectorsRunE twoClusterClient okPrinter List.reverse "*" true).printed
        = some (Printable.outlineStringResults "name" printed') ∧
      printed.Perm printed') :=
  ⟨(connectors_names_in_visiting_order twoClusterClient okPrinter id List.reverse
      [ConnectCluster.mk "a", ConnectCluster.mk "b"] twoClusterNames rfl (fun _ _ => rfl)
      (fun m => List.Perm.refl m) (fun m => List.reverse_perm m)).2.1 (by decide) rfl,
   (connectors_names_in_visiting_order twoClusterClient okPrinter id List.reverse
      [ConnectCluster.mk "a", ConnectCluster.mk "b"] twoClusterNames rfl (fun _ _ => rfl)
      (fun m => List.Perm.refl m) (fun m => List.reverse_perm m)).2.2⟩

/-- C10: in `connectors` without `--names`, once the map of connector names is
known, the command's result is the printer's result alone: a failing
`GetConnector` never makes it fail. The map handed to the printer holds, for
each cluster of the names map, exactly the connectors whose `GetConnector` call
succeeded, in name order; a cluster with no successfully fetched connector (in
particular one with no names) has no key in it, and neither has any other
cluster. This holds whatever order the range over the names map takes. -/
theorem connectors_details_keep_fetched_only (client : ConnectClient) (pr : Printer)
    (rangeOrder : GoMap (List String) → List (String × List String))
    (clusterName : String) (connectorNames : GoMap (List String))
    (hnames : (fetchNames client clusterName).1 = .ok connectorNames)
    (hrange : (rangeOrder connectorNames).Perm connectorNames) :
    ∃ connectors,
      (connectorsRunE client pr rangeOrder clusterName false).printed
        = some (Printable.connectors connectors) ∧
      (connectorsRunE client pr rangeOrder clusterName false).err
        = pr.printJSON (Printable.connectors connectors) ∧
      ∀ cluster, connectors.get cluster
        = match connectorNames.get cluster with
          | none => none
          | some names =>
            if fetchedOk client cluster names = [] then none
            else some (fetchedOk client cluster names) := by
  have hnodup := fetchNames_nodup_keys client clusterName connectorNames hnames
  have hnodup' : (GoMap.keys (rangeOrder connectorNames)).Nodup :=
    ((hrange.map Prod.fst).nodup_iff).mpr hnodup
  refine ⟨(fetchDetails client (rangeOrder connectorNames)
    { connectors := [], trace := [] }).connectors, ?_, ?_, ?_⟩
  · simp only [connectorsRunE, hnames, Bool.false_eq_true, if_false]
    exact Run.printed_concat _ _ _
  · simp only [connectorsRunE, hnames, Bool.false_eq_true, if_false]
  · intro cluster
    rw [fetchDetails_get client _ hnodup' { connectors := [], trace := [] }
        (fun _ _ => rfl) cluster,
      GoMap.get_perm connectorNames _ hnodup hrange cluster]
    cases GoMap.get connectorNames cluster <;> rfl

/-- Witness of C10: clusters `a` and `b`, where connector `x` of `a` cannot be
fetched; the range visits the map in reverse. -/
theorem connectors_details_keep_fetched_only_witness :
    ∃ connectors,
      (connectorsRunE failingConnectorClient okPrinter List.reverse "*" false).printed
        = some (Printable.connectors connectors) ∧
      (connectorsRunE failingConnectorClient okPrinter List.reverse "*" false).err
        = okPrinter.printJSON (Printable.connectors connectors) ∧
      ∀ cluster, connectors.get cluster
        = match GoMap.get [("a", ["x"]), ("b", ["y"])] cluster with
          | none => none
          | some names =>
            if fetchedOk failingConnectorClient cluster names = [] then none
            else some (fetchedOk failingConnectorClient cluster names) :=
  connectors_details_keep_fetched_only failingConnectorClient okPrinter List.reverse "*"
    [("a", ["x"]), ("b", ["y"])]
    (by simp [fetchNames, collectNames, failingConnectorClient, twoClusterClient,
      twoClusterNames, GoMap.appendAt, GoMap.set, GoMap.get])
    (List.reverse_perm _)

/-! ### The single-connector commands -/

theorem checkRequiredFlags_cluster_name (clusterName name : String)
    (hc : clusterName ≠ "") (hn : name ≠ "") :
    checkRequiredFlags [("clusterName", Value.str clusterName), ("name", Value.str name)]
      = none := by
  simp [checkRequiredFlags, Value.isZero, hc, hn]

/-- C11: in the `connector` get command with non-empty clusterName c and name n,
if `GetConnector(c, n)` fails the command returns exactly that error, hands
nothing to the printer, and its last step sets `errResourceNotFoundMessage` to
the format "connector '%s:%s' does not exist" applied to c and n, which renders
as "connector 'c:n' does not exist". If the call succeeds the returned connector
is handed to `printJSON` and the command's result is the printer's result. -/
theorem connector_get_aborts_or_prints (client : ConnectClient) (pr : Printer)
    (clusterName name : String) (hc : clusterName ≠ "") (hn : name ≠ "") :
    (∀ err, client.GetConnector clusterName name = .error err →
      connectorGroupRunE client pr clusterName name
        = { err := some err,
            trace := [Event.GetConnector clusterName name,
              Event.setNotFoundMessage "connector '%s:%s' does not exist"
                [Arg.s clusterName, Arg.s name]] }) ∧
    Sprintf "connector '%s:%s' does not exist" [clusterName, name]
      = "connector '" ++ clusterName ++ ":" ++ name ++ "' does not exist" ∧
    (∀ connector, client.GetConnector clusterName name = .ok connector →
      connectorGroupRunE client pr clusterName name
        = { err := pr.printJSON (Printable.connector connector),
            trace := [Event.GetConnector clusterName name,
              Event.printJSON (Printable.connector connector)] }) := by
  have hcheck := checkRequiredFlags_cluster_name clusterName name hc hn
  refine ⟨?_, ?_, ?_⟩
  · intro err herr
    simp [connectorGroupRunE, hcheck, herr]
  · apply String.ext
    simp [Sprintf, sprintfChars]
  · intro connector hok
    simp [connectorGroupRunE, hcheck, hok]

/-- Witness of C11: `connector --clusterName=a --name=x` against a client that
knows no connector. -/
theorem connector_get_aborts_or_prints_witness :
    ("a" ≠ "" ∧ "x" ≠ "") ∧
    connectorGroupRunE emptyConnectClient okPrinter "a" "x"
      = { err := some (Error.other "not found"),
          trace := [Event.GetConnector "a" "x",
            Event.setNotFoundMessage "connector '%s:%s' does not exist"
              [Arg.s "a", Arg.s "x"]] } ∧
    Sprintf "connector '%s:%s' does not exist" ["a", "x"]
      = "connector '" ++ "a" ++ ":" ++ "x" ++ "' does not exist" :=
  ⟨⟨by decide, by decide⟩,
    (connector_get_aborts_or_prints emptyConnectClient okPrinter "a" "x" (by decide)
      (by decide)).1 (Error.other "not found") rfl,
    (connector_get_aborts_or_prints emptyConnectClient okPrinter "a" "x" (by decide)
      (by decide)).2.1⟩

theorem beforeFirstCall_cons_local (ev : Event) (rest : List Event)
    (h : ev.isRemote = false) : beforeFirstCall (ev :: rest) = ev :: beforeFirstCall rest := by
  simp [beforeFirstCall, List.takeWhile_cons, h]

theorem beforeFirstCall_cons_remote (ev : Event) (rest : List Event)
    (h : ev.isRemote = true) : beforeFirstCall (ev :: rest) = [] := by
  simp [beforeFirstCall, List.takeWhile_cons, h]

theorem beforeFirstCall_nil : beforeFirstCall [] = [] := rfl

theorem connectorUpdate_no_hint_before_call (client : ConnectClient) (env : Helpers)
    (pr : Printer) (silent : Bool) (clusterName name configRaw : String) (args : List String) :
    (beforeFirstCall
      (connectorUpdateRunE client env pr silent clusterName name configRaw args).trace).filter
        Event.isNotFoundHint = [] := by
  have key : ∀ (loaded : Except Error CreateUpdateConnectorPayload) (ev : Event),
      ev.isRemote = false → ev.isNotFoundHint = false →
      (beforeFirstCall
        (match loaded with
        | .error err => ({ err := some err, trace := [ev] } : Run)
        | .ok connector =>
          match ApplyAndValidateName connector with
          | .error err => { err := some err, trace := [ev] }
          | .ok connector =>
            match checkRequiredFlags
                [("clusterName", Value.str connector.ClusterAlias),
                 ("name", Value.str connector.Name)] with
            | some err => { err := some err, trace := [ev] }
            | none =>
              match client.GetConnector connector.ClusterAlias connector.Name with
              | .error err =>
                { err := some err,
                  trace := [ev] ++ [Event.GetConnector connector.ClusterAlias connector.Name] ++
                    [Event.setNotFoundMessage "connector '%s:%s' does not exist"
                      [Arg.s connector.ClusterAlias, Arg.s connector.Name]] }
              | .ok existingConnector =>
                match existingConnector.Config with
                | none => connectorUpdateSend client pr silent connector
                    ([ev] ++ [Event.GetConnector connector.ClusterAlias connector.Name])
                | some config =>
                  if (config.get "name").getD Value.nil ≠ Value.str connector.Name then
                    { err := some (Error.formatted
                        "connector config[\"name\"] '%s' does not match with the existing one '%s'"
                        [Value.str connector.Name, (config.get "name").getD Value.nil]),
                      trace := [ev] ++ [Event.GetConnector connector.ClusterAlias connector.Name] }
                  else connectorUpdateSend client pr silent connector
                    ([ev] ++ [Event.GetConnector connector.ClusterAlias connector.Name])).trace).filter
        Event.isNotFoundHint = [] := by
    intro loaded ev hr hh
    cases loaded with
    | error e => simp [beforeFirstCall_cons_local _ _ hr, beforeFirstCall_nil, hh]
    | ok c1 =>
      simp only []
      cases ApplyAndValidateName c1 with
      | error e => simp [beforeFirstCall_cons_local _ _ hr, beforeFirstCall_nil, hh]
      | ok c2 =>
        simp only []
        cases checkRequiredFlags
          [("clusterName", Value.str c2.ClusterAlias), ("name", Value.str c2.Name)] with
        | some e => simp [beforeFirstCall_cons_local _ _ hr, beforeFirstCall_nil, hh]
        | none =>
          simp only []
          cases client.GetConnector c2.ClusterAlias c2.Name with
          | error e => simp [beforeFirstCall_cons_local _ _ hr,
                  beforeFirstCall_cons_remote (Event.GetConnector _ _) _ rfl, hh]
          | ok ex =>
            simp only []
            cases ex.Config with
            | none =>
              simp only [connectorUpdateSend]
              cases client.UpdateConnector c2.ClusterAlias c2.Name c2.Config <;>
                cases silent <;> simp [beforeFirstCall_cons_local _ _ hr,
                  beforeFirstCall_cons_remote (Event.GetConnector _ _) _ rfl, hh]
            | some config =>
              simp only [connectorUpdateSend]
              split
              · simp [beforeFirstCall_cons_local _ _ hr,
                  beforeFirstCall_cons_remote (Event.GetConnector _ _) _ rfl, hh]
              · cases client.UpdateConnector c2.ClusterAlias c2.Name c2.Config <;>
                  cases silent <;> simp [beforeFirstCall_cons_local _ _ hr,
                  beforeFirstCall_cons_remote (Event.GetConnector _ _) _ rfl, hh]
  unfold connectorUpdateRunE
  cases args with
  | nil =>
    rcases h1 : env.tryReadFile configRaw [] with ⟨_ | e, cfg⟩
    · simpa [h1] using key (.ok { ClusterAlias := clusterName, Name := name, Config := cfg })
        (Event.tryReadFile configRaw) rfl rfl
    · simpa [h1] using key (.error e) (Event.tryReadFile configRaw) rfl rfl
  | cons path rest =>
    simpa using key (env.loadFile path { ClusterAlias := clusterName, Name := name, Config := [] })
      (Event.loadFile path) rfl rfl

theorem connectorUpdate_of_resolved (client : ConnectClient) (env : Helpers) (pr : Printer)
    (silent : Bool) (clusterName name configRaw : String) (args : List String)
    (connector : CreateUpdateConnectorPayload)
    (h : resolveConnectorPayload env clusterName name configRaw args = .ok connector) :
    ∃ ev, ev.isRemote = false ∧ ev.isNotFoundHint = false ∧ ev.isOutput = false ∧
      connectorUpdateRunE client env pr silent clusterName name configRaw args
        = match client.GetConnector connector.ClusterAlias connector.Name with
          | .error err =>
            { err := some err,
              trace := [ev, Event.GetConnector connector.ClusterAlias connector.Name,
                Event.setNotFoundMessage "connector '%s:%s' does not exist"
                  [Arg.s connector.ClusterAlias, Arg.s connector.Name]] }
          | .ok existingConnector =>
            match existingConnector.Config with
            | none => connectorUpdateSend client pr silent connector
                [ev, Event.GetConnector connector.ClusterAlias connector.Name]
            | some config =>
              if (config.get "name").getD Value.nil ≠ Value.str connector.Name then
                { err := some (Error.formatted
                    "connector config[\"name\"] '%s' does not match with the existing one '%s'"
                    [Value.str connector.Name, (config.get "name").getD Value.nil]),
                  trace := [ev, Event.GetConnector connector.ClusterAlias connector.Name] }
              else connectorUpdateSend client pr silent connector
                [ev, Event.GetConnector connector.ClusterAlias connector.Name] := by
  unfold resolveConnectorPayload at h
  unfold connectorUpdateRunE
  cases args with
  | nil =>
    refine ⟨Event.tryReadFile configRaw, rfl, rfl, rfl, ?_⟩
    rcases h1 : env.tryReadFile configRaw [] with ⟨_ | e, cfg⟩
    · simp only [h1] at h ⊢
      cases h2 : ApplyAndValidateName { ClusterAlias := clusterName, Name := name, Config := cfg } with
      | error e2 => simp [h2] at h
      | ok c2 =>
        simp only [h2] at h ⊢
        cases h3 : checkRequiredFlags
          [("clusterName", Value.str c2.ClusterAlias), ("name", Value.str c2.Name)] with
        | some e3 => simp [h3] at h
        | none =>
          simp only [h3, Except.ok.injEq] at h ⊢
          subst h
          rfl
    · simp [h1] at h
  | cons path rest =>
    refine ⟨Event.loadFile path, rfl, rfl, rfl, ?_⟩
    simp only [] at h ⊢
    cases h1 : env.loadFile path { ClusterAlias := clusterName, Name := name, Config := [] } with
    | error e1 => simp [h1] at h
    | ok c1 =>
      simp only [h1] at h ⊢
      cases h2 : ApplyAndValidateName c1 with
      | error e2 => simp [h2] at h
      | ok c2 =>
        simp only [h2] at h ⊢
        cases h3 : checkRequiredFlags
          [("clusterName", Value.str c2.ClusterAlias), ("name", Value.str c2.Name)] with
        | some e3 => simp [h3] at h
        | none =>
          simp only [h3, Except.ok.injEq] at h ⊢
          subst h
          rfl

theorem connectorUpdateSend_no_hint (client : ConnectClient) (pr : Printer) (silent : Bool)
    (connector : CreateUpdateConnectorPayload) (got : List Event)
    (hgot : got.filter Event.isNotFoundHint = []) :
    (connectorUpdateSend client pr silent connector got).trace.filter Event.isNotFoundHint
      = [] := by
  unfold connectorUpdateSend
  cases client.UpdateConnector connector.ClusterAlias connector.Name connector.Config <;>
    cases silent <;> simp [List.filter_append, hgot, Event.isNotFoundHint]

theorem filter_hint_local_call (ev : Event) (clusterName name : String)
    (hev : ev.isNotFoundHint = false) :
    [ev, Event.GetConnector clusterName name].filter Event.isNotFoundHint = [] := by
  simp only [List.filter_cons, hev, Bool.false_eq_true, if_false]
  rfl

/-- Counterexample to C12 as stated: `connector`, `connector pause` and
`connector delete` for connector `a:x` against a client that knows no connector.
In each run the first step is the client call; no assignment of the not-found
hint precedes it, the hint is assigned only afterwards. Against a client that
knows the connector the hint is never assigned. -/
theorem connector_hint_not_set_before_call :
    connectorGroupRunE emptyConnectClient okPrinter "a" "x"
      = { err := some (Error.other "not found"),
          trace := [Event.GetConnector "a" "x",
            Event.setNotFoundMessage "connector '%s:%s' does not exist"
              [Arg.s "a", Arg.s "x"]] } ∧
    connectorPauseRunE failingConnectorOps okPrinter "a" "x"
      = { err := some (Error.other "not found"),
          trace := [Event.PauseConnector "a" "x",
            Event.setNotFoundMessage "unable to pause, connector '%s:%s' does not exist"
              [Arg.s "a", Arg.s "x"]] } ∧
    connectorDeleteRunE failingConnectorOps okPrinter "a" "x"
      = { err := some (Error.other "not found"),
          trace := [Event.DeleteConnector "a" "x",
            Event.setNotFoundMessage "unable to delete, connector '%s:%s' does not exist"
              [Arg.s "a", Arg.s "x"]] } ∧
    (beforeFirstCall (connectorGroupRunE emptyConnectClient okPrinter "a" "x").trace).filter
      Event.isNotFoundHint = [] ∧
    (connectorGroupRunE twoClusterClient okPrinter "a" "x").trace.filter
      Event.isNotFoundHint = [] := by
  refine ⟨?_, ?_, ?_, ?_, ?_⟩ <;>
    simp [connectorGroupRunE, connectorPauseRunE, connectorDeleteRunE, checkRequiredFlags,
      Value.isZero, emptyConnectClient, failingConnectorOps, twoClusterClient, beforeFirstCall,
      Event.isRemote, Event.isNotFoundHint]

/-- C12, amended: in every single-target connector command (get, update, config,
status, pause, resume, restart, tasks, delete) the not-found hint is assigned
only after the remote call has failed. In no run is it assigned before the first
client call. When the required flags are set and the client call fails, the
trace is the call followed by the assignment of that command's hint for the
given clusterName and name, and the call's error is returned; when the call
succeeds the hint is not assigned at all. For `connector update` the same holds
of `GetConnector` on the resolved payload, after the step that loads the file
or the `--config` value. -/
theorem connector_hint_set_after_failed_call (cc : ConnectClient) (ops : ConnectorClient)
    (env : Helpers) (pr : Printer) (silent : Bool) (clusterName name configRaw : String)
    (args : List String) :
    (∀ run ∈ [connectorGroupRunE cc pr clusterName name,
        connectorUpdateRunE cc env pr silent clusterName name configRaw args,
        connectorGetConfigRunE ops pr clusterName name,
        connectorGetStatusRunE ops pr clusterName name,
        connectorPauseRunE ops pr clusterName name,
        connectorResumeRunE ops pr clusterName name,
        connectorRestartRunE ops pr clusterName name,
        connectorGetTasksRunE ops pr clusterName name,
        connectorDeleteRunE ops pr clusterName name],
      (beforeFirstCall run.trace).filter Event.isNotFoundHint = []) ∧
    (clusterName ≠ "" → name ≠ "" →
      (∀ err, cc.GetConnector clusterName name = .error err →
        connectorGroupRunE cc pr clusterName name
          = { err := some err,
              trace := [Event.GetConnector clusterName name,
                Event.setNotFoundMessage "connector '%s:%s' does not exist"
                  [Arg.s clusterName, Arg.s name]] }) ∧
      (∀ err, ops.GetConnectorConfig clusterName name = .error err →
        connectorGetConfigRunE ops pr clusterName name
          = { err := some err,
              trace := [Event.GetConnectorConfig clusterName name,
                Event.setNotFoundMessage "unable to retrieve config, connector '%s:%s' does not exist"
                  [Arg.s clusterName, Arg.s name]] }) ∧
      (∀ err, ops.GetConnectorStatus clusterName name = .error err →
        connectorGetStatusRunE ops pr clusterName name
          = { err := some err,
              trace := [Event.GetConnectorStatus clusterName name,
                Event.setNotFoundMessage "unable to retrieve status, connector '%s:%s' does not exist"
                  [Arg.s clusterName, Arg.s name]] }) ∧
      (∀ err, ops.PauseConnector clusterName name = some err →
        connectorPauseRunE ops pr clusterName name
          = { err := some err,
              trace := [Event.PauseConnector clusterName name,
                Event.setNotFoundMessage "unable to pause, connector '%s:%s' does not exist"
                  [Arg.s clusterName, Arg.s name]] }) ∧
      (∀ err, ops.ResumeConnector clusterName name = some err →
        connectorResumeRunE ops pr clusterName name
          = { err := some err,
              trace := [Event.ResumeConnector clusterName name,
                Event.setNotFoundMessage "unable to resume, connector '%s:%s' does not exist"
                  [Arg.s clusterName, Arg.s name]] }) ∧
      (∀ err, ops.RestartConnector clusterName name = some err →
        connectorRestartRunE ops pr clusterName name
          = { err := some err,
              trace := [Event.RestartConnector clusterName name,
                Event.setNotFoundMessage "unable to restart, connector '%s:%s' does not exist"
                  [Arg.s clusterName, Arg.s name]] }) ∧
      (∀ err, ops.GetConnectorTasks clusterName name = .error err →
        connectorGetTasksRunE ops pr clusterName name
          = { err := some err,
              trace := [Event.GetConnectorTasks clusterName name,
                Event.setNotFoundMessage "unable to retrieve tasks, connector '%s:%s' does not exist"
                  [Arg.s clusterName, Arg.s name]] }) ∧
      (∀ err, ops.DeleteConnector clusterName name = some err →
        connectorDeleteRunE ops pr clusterName name
          = { err := some err,
              trace := [Event.DeleteConnector clusterName name,
                Event.setNotFoundMessage "unable to delete, connector '%s:%s' does not exist"
                  [Arg.s clusterName, Arg.s name]] })) ∧
    (clusterName ≠ "" → name ≠ "" →
      (∀ v, cc.GetConnector clusterName name = .ok v →
        (connectorGroupRunE cc pr clusterName name).trace.filter Event.isNotFoundHint = []) ∧
      (∀ v, ops.GetConnectorConfig clusterName name = .ok v →
        (connectorGetConfigRunE ops pr clusterName name).trace.filter Event.isNotFoundHint = []) ∧
      (∀ v, ops.GetConnectorStatus clusterName name = .ok v →
        (connectorGetStatusRunE ops pr clusterName name).trace.filter Event.isNotFoundHint = []) ∧
      (ops.PauseConnector clusterName name = none →
        (connectorPauseRunE ops pr clusterName name).trace.filter Event.isNotFoundHint = []) ∧
      (ops.ResumeConnector clusterName name = none →
        (connectorResumeRunE ops pr clusterName name).trace.filter Event.isNotFoundHint = []) ∧
      (ops.RestartConnector clusterName name = none →
        (connectorRestartRunE ops pr clusterName name).trace.filter Event.isNotFoundHint = []) ∧
      (∀ v, ops.GetConnectorTasks clusterName name = .ok v →
        (connectorGetTasksRunE ops pr clusterName name).trace.filter Event.isNotFoundHint = []) ∧
      (ops.DeleteConnector clusterName name = none →
        (connectorDeleteRunE ops pr clusterName name).trace.filter Event.isNotFoundHint = [])) ∧
    (∀ connector err,
      resolveConnectorPayload env clusterName name configRaw args = .ok connector →
      cc.GetConnector connector.ClusterAlias connector.Name = .error err →
      (connectorUpdateRunE cc env pr silent clusterName name configRaw args).err = some err ∧
      (connectorUpdateRunE cc env pr silent clusterName name configRaw args).trace.drop 1
        = [Event.GetConnector connector.ClusterAlias connector.Name,
           Event.setNotFoundMessage "connector '%s:%s' does not exist"
             [Arg.s connector.ClusterAlias, Arg.s connector.Name]]) ∧
    (∀ connector existing,
      resolveConnectorPayload env clusterName name configRaw args = .ok connector →
      cc.GetConnector connector.ClusterAlias connector.Name = .ok existing →
      (connectorUpdateRunE cc env pr silent clusterName name configRaw args).trace.filter
        Event.isNotFoundHint = []) := by
  refine ⟨?_, ?_, ?_, ?_, ?_⟩
  · intro run hrun
    simp only [List.mem_cons, List.mem_singleton, List.not_mem_nil, or_false] at hrun
    rcases hrun with h | h | h | h | h | h | h | h | h
    · subst h
      unfold connectorGroupRunE
      cases checkRequiredFlags
          [("clusterName", Value.str clusterName), ("name", Value.str name)] with
      | some e => simp [beforeFirstCall_nil]
      | none =>
        cases cc.GetConnector clusterName name <;>
          simp [beforeFirstCall_cons_remote (Event.GetConnector _ _) _ rfl]
    · subst h
      exact connectorUpdate_no_hint_before_call cc env pr silent clusterName name configRaw args
    · subst h
      unfold connectorGetConfigRunE
      cases checkRequiredFlags
          [("clusterName", Value.str clusterName), ("name", Value.str name)] with
      | some e => simp [beforeFirstCall_nil]
      | none =>
        cases ops.GetConnectorConfig clusterName name <;>
          simp [beforeFirstCall_cons_remote (Event.GetConnectorConfig _ _) _ rfl]
    · subst h
      unfold connectorGetStatusRunE
      cases checkRequiredFlags
          [("clusterName", Value.str clusterName), ("name", Value.str name)] with
      | some e => simp [beforeFirstCall_nil]
      | none =>
        cases ops.GetConnectorStatus clusterName name <;>
          simp [beforeFirstCall_cons_remote (Event.GetConnectorStatus _ _) _ rfl]
    · subst h
      unfold connectorPauseRunE
      cases checkRequiredFlags
          [("clusterName", Value.str clusterName), ("name", Value.str name)] with
      | some e => simp [beforeFirstCall_nil]
      | none =>
        cases ops.PauseConnector clusterName name <;>
          simp [beforeFirstCall_cons_remote (Event.PauseConnector _ _) _ rfl]
    · subst h
      unfold connectorResumeRunE
      cases checkRequiredFlags
          [("clusterName", Value.str clusterName), ("name", Value.str name)] with
      | some e => simp [beforeFirstCall_nil]
      | none =>
        cases ops.ResumeConnector clusterName name <;>
          simp [beforeFirstCall_cons_remote (Event.ResumeConnector _ _) _ rfl]
    · subst h
      unfold connectorRestartRunE
      cases checkRequiredFlags
          [("clusterName", Value.str clusterName), ("name", Value.str name)] with
      | some e => simp [beforeFirstCall_nil]
      | none =>
        cases ops.RestartConnector clusterName name <;>
          simp [beforeFirstCall_cons_remote (Event.RestartConnector _ _) _ rfl]
    · subst h
      unfold connectorGetTasksRunE
      cases checkRequiredFlags
          [("clusterName", Value.str clusterName), ("name", Value.str name)] with
      | some e => simp [beforeFirstCall_nil]
      | none =>
        cases ops.GetConnectorTasks clusterName name <;>
          simp [beforeFirstCall_cons_remote (Event.GetConnectorTasks _ _) _ rfl]
    · subst h
      unfold connectorDeleteRunE
      cases checkRequiredFlags
          [("clusterName", Value.str clusterName), ("name", Value.str name)] with
      | some e => simp [beforeFirstCall_nil]
      | none =>
        cases ops.DeleteConnector clusterName name <;>
          simp [beforeFirstCall_cons_remote (Event.DeleteConnector _ _) _ rfl]
  · intro hc hn
    have hcheck := checkRequiredFlags_cluster_name clusterName name hc hn
    refine ⟨?_, ?_, ?_, ?_, ?_, ?_, ?_, ?_⟩ <;> intro err herr <;>
      simp [connectorGroupRunE, connectorGetConfigRunE, connectorGetStatusRunE,
        connectorPauseRunE, connectorResumeRunE, connectorRestartRunE, connectorGetTasksRunE,
        connectorDeleteRunE, hcheck, herr]
  · intro hc hn
    have hcheck := checkRequiredFlags_cluster_name clusterName name hc hn
    refine ⟨?_, ?_, ?_, ?_, ?_, ?_, ?_, ?_⟩
    · intro v hok
      simp [connectorGroupRunE, hcheck, hok, Event.isNotFoundHint]
    · intro v hok
      simp [connectorGetConfigRunE, hcheck, hok, Event.isNotFoundHint]
    · intro v hok
      simp [connectorGetStatusRunE, hcheck, hok, Event.isNotFoundHint]
    · intro hok
      simp [connectorPauseRunE, hcheck, hok, Event.isNotFoundHint]
    · intro hok
      simp [connectorResumeRunE, hcheck, hok, Event.isNotFoundHint]
    · intro hok
      simp [connectorRestartRunE, hcheck, hok, Event.isNotFoundHint]
    · intro v hok
      simp [connectorGetTasksRunE, hcheck, hok, Event.isNotFoundHint]
    · intro hok
      simp [connectorDeleteRunE, hcheck, hok, Event.isNotFoundHint]
  · intro connector err hres hfail
    obtain ⟨ev, _, _, _, hrun⟩ := connectorUpdate_of_resolved cc env pr silent clusterName name
      configRaw args connector hres
    rw [hrun, hfail]
    exact ⟨rfl, rfl⟩
  · intro connector existing hres hok
    obtain ⟨ev, _, hev, _, hrun⟩ := connectorUpdate_of_resolved cc env pr silent clusterName
      name configRaw args connector hres
    rw [hrun, hok]
    simp only []
    cases existing.Config with
    | none =>
      exact connectorUpdateSend_no_hint cc pr silent connector _
        (filter_hint_local_call ev _ _ hev)
    | some config =>
      simp only []
      split
      · exact filter_hint_local_call ev _ _ hev
      · exact connectorUpdateSend_no_hint cc pr silent connector _
          (filter_hint_local_call ev _ _ hev)

/-- Witness of C12, amended: `connector pause --clusterName=a --name=x` against a
client whose calls fail. -/
theorem connector_hint_set_after_failed_call_witness :
    ("a" ≠ "" ∧ "x" ≠ "") ∧
    connectorPauseRunE failingConnectorOps okPrinter "a" "x"
      = { err := some (Error.other "not found"),
          trace := [Event.PauseConnector "a" "x",
            Event.setNotFoundMessage "unable to pause, connector '%s:%s' does not exist"
              [Arg.s "a", Arg.s "x"]] } :=
  ⟨⟨by decide, by decide⟩,
    ((connector_hint_set_after_failed_call emptyConnectClient failingConnectorOps
      (fileHelpers []) okPrinter false "a" "x" "" []).2.1 (by decide) (by decide)).2.2.2.1
      (Error.other "not found") rfl⟩

/-- Counterexample to C13 as stated: `connector update --clusterName=a --name=x`
with `silent` set and every call succeeding. The run ends with the
`UpdateConnector` call: it returns nil without echoing the message and without
handing the updated connector to `printJSON`. The same run without `silent`
echoes the message and prints the connector. -/
theorem connector_update_silent_prints_no_connector :
    connectorUpdateRunE twoClusterClient (fileHelpers []) okPrinter true "a" "x" "" []
      = { err := none,
          trace := [Event.tryReadFile "", Event.GetConnector "a" "x",
            Event.UpdateConnector "a" "x" [("name", Value.str "x")]] } ∧
    connectorUpdateRunE twoClusterClient (fileHelpers []) okPrinter false "a" "x" "" []
      = { err := none,
          trace := [Event.tryReadFile "", Event.GetConnector "a" "x",
            Event.UpdateConnector "a" "x" [("name", Value.str "x")],
            Event.echo "Connector %s updated\n\n" [Arg.s "x"],
            Event.printJSON (Printable.connector
              { ClusterName := "a", Name := "x", Config := some [("name", Value.str "x")] })] } := by
  constructor <;>
    simp [connectorUpdateRunE, connectorUpdateSend, fileHelpers, twoClusterClient, okPrinter,
      ApplyAndValidateName, GoMap.get, GoMap.set, checkRequiredFlags, Value.isZero]

/-- C13, amended: in `connector update`, `silent` silences the narration and the
structured result together. When the payload resolves, `GetConnector` succeeds
with a config that is nil or carries the payload name, and `UpdateConnector`
succeeds: with `silent` the command returns nil and writes nothing, neither the
"Connector X updated" message nor the updated connector; without `silent` it
echoes the message, hands the updated connector to `printJSON` and returns the
printer's result. -/
theorem connector_update_silent_suppresses_all_output (client : ConnectClient)
    (env : Helpers) (pr : Printer) (clusterName name configRaw : String) (args : List String)
    (connector : CreateUpdateConnectorPayload) (existing updated : Connector)
    (hres : resolveConnectorPayload env clusterName name configRaw args = .ok connector)
    (hget : client.GetConnector connector.ClusterAlias connector.Name = .ok existing)
    (hname : ∀ config, existing.Config = some config →
      (config.get "name").getD Value.nil = Value.str connector.Name)
    (hupdate : client.UpdateConnector connector.ClusterAlias connector.Name connector.Config
      = .ok updated) :
    (connectorUpdateRunE client env pr true clusterName name configRaw args).err = none ∧
    (connectorUpdateRunE client env pr true clusterName name configRaw args).trace.filter
      Event.isOutput = [] ∧
    (connectorUpdateRunE client env pr false clusterName name configRaw args).err
      = pr.printJSON (Printable.connector updated) ∧
    (connectorUpdateRunE client env pr false clusterName name configRaw args).trace.filter
      Event.isOutput
      = [Event.echo "Connector %s updated\n\n" [Arg.s connector.Name],
         Event.printJSON (Printable.connector updated)] := by
  have hsend : ∀ silent, ∃ ev, ev.isOutput = false ∧
      connectorUpdateRunE client env pr silent clusterName name configRaw args
        = connectorUpdateSend client pr silent connector
            [ev, Event.GetConnector connector.ClusterAlias connector.Name] := by
    intro silent
    obtain ⟨ev, _, _, hout, hrun⟩ := connectorUpdate_of_resolved client env pr silent
      clusterName name configRaw args connector hres
    refine ⟨ev, hout, ?_⟩
    rw [hrun, hget]
    simp only []
    cases hc : existing.Config with
    | none => rfl
    | some config => simp [hname config hc]
  obtain ⟨ev, hout, hrun⟩ := hsend true
  obtain ⟨ev', hout', hrun'⟩ := hsend false
  have hlocal : ∀ e : Event, e.isOutput = false →
      [e, Event.GetConnector connector.ClusterAlias connector.Name,
        Event.UpdateConnector connector.ClusterAlias connector.Name connector.Config].filter
          Event.isOutput = [] := by
    intro e he
    simp only [List.filter_cons, he, Bool.false_eq_true, if_false]
    rfl
  refine ⟨?_, ?_, ?_, ?_⟩
  · rw [hrun]
    simp [connectorUpdateSend, hupdate]
  · rw [hrun]
    simp only [connectorUpdateSend, hupdate, if_true, List.cons_append, List.nil_append]
    exact hlocal ev hout
  · rw [hrun']
    simp [connectorUpdateSend, hupdate]
  · rw [hrun']
    simp only [connectorUpdateSend, hupdate, Bool.false_eq_true, if_false]
    rw [List.filter_append, List.cons_append, List.cons_append, List.nil_append, hlocal ev' hout']
    rfl

/-- Witness of C13, amended: `connector update --clusterName=a --name=x` against
a client that knows the connector. -/
theorem connector_update_silent_suppresses_all_output_witness :
    (connectorUpdateRunE twoClusterClient (fileHelpers []) okPrinter true "a" "x" "" []).err
      = none ∧
    (connectorUpdateRunE twoClusterClient (fileHelpers []) okPrinter true "a" "x" ""
      []).trace.filter Event.isOutput = [] :=
  ⟨(connector_update_silent_suppresses_all_output twoClusterClient (fileHelpers []) okPrinter
      "a" "x" "" [] { ClusterAlias := "a", Name := "x", Config := [("name", Value.str "x")] }
      { ClusterName := "a", Name := "x", Config := none }
      { ClusterName := "a", Name := "x", Config := some [("name", Value.str "x")] }
      (by simp [resolveConnectorPayload, fileHelpers, ApplyAndValidateName, GoMap.get,
        GoMap.set, checkRequiredFlags, Value.isZero])
      rfl (by intro config h; simp at h) rfl).1,
   (connector_update_silent_suppresses_all_output twoClusterClient (fileHelpers []) okPrinter
      "a" "x" "" [] { ClusterAlias := "a", Name := "x", Config := [("name", Value.str "x")] }
      { ClusterName := "a", Name := "x", Config := none }
      { ClusterName := "a", Name := "x", Config := some [("name", Value.str "x")] }
      (by simp [resolveConnectorPayload, fileHelpers, ApplyAndValidateName, GoMap.get,
        GoMap.set, checkRequiredFlags, Value.isZero])
      rfl (by intro config h; simp at h) rfl).2.1⟩

/-! ### `connectors clusters --names` -/

theorem writeClusterNames_joined (total : Nat) (rest : List ConnectCluster)
    (cl : ConnectCluster) (i : Nat) (b : String) (hi : i + (rest.length + 1) = total) :
    writeClusterNames total false i (cl :: rest) b
      = String.intercalate.go (b ++ cl.Name) "\n" (rest.map fun c => c.Name) := by
  induction rest generalizing cl i b with
  | nil =>
    have hlast : (total : Int) - 1 = (i : Int) := by
      simp only [List.length_nil] at hi
      omega
    simp [writeClusterNames, hlast, String.intercalate.go]
  | cons c2 r ih =>
    have hnot : ¬ (total : Int) - 1 = (i : Int) := by
      simp only [List.length_cons] at hi
      omega
    rw [writeClusterNames]
    simp only [Bool.not_false, true_and, ne_eq, hnot, not_false_eq_true, if_true]
    rw [ih c2 (i + 1) _ (by simp only [List.length_cons] at hi ⊢; omega)]
    simp [String.intercalate.go]

theorem writeClusterNames_concatenated (total : Nat) (rest : List ConnectCluster) (i : Nat)
    (b : String) :
    writeClusterNames total true i rest b
      = (rest.map fun c => c.Name).foldl (fun r s => r ++ s) b := by
  induction rest generalizing i b with
  | nil => simp [writeClusterNames]
  | cons cl r ih => simp [writeClusterNames, ih]

/-- C14: in `connectors clusters --names`, for every list of clusters returned
by `GetConnectClusters`: without `--no-newline` the text written is the names
joined by a single line break, with none after the last name, followed by one
final line break; with `--no-newline` it is the names concatenated with no
separator, followed by one final line break. For the empty list the text is a
single line break in both cases. -/
theorem connectors_clusters_names_text (client : ConnectClient) (pr : Printer) (out : Output)
    (clusters : List ConnectCluster) (hclusters : client.GetConnectClusters = .ok clusters) :
    (connectorsClustersRunE client pr out true false).trace
      = [Event.GetConnectClusters,
         Event.stdout (String.intercalate "\n" (clusters.map fun c => c.Name) ++ "\n")] ∧
    (connectorsClustersRunE client pr out true true).trace
      = [Event.GetConnectClusters,
         Event.stdout (String.join (clusters.map fun c => c.Name) ++ "\n")] ∧
    (clusters = [] →
      (connectorsClustersRunE client pr out true false).trace
        = [Event.GetConnectClusters, Event.stdout "\n"] ∧
      (connectorsClustersRunE client pr out true true).trace
        = [Event.GetConnectClusters, Event.stdout "\n"]) := by
  have hjoined : writeClusterNames clusters.length false 0 clusters ""
      = String.intercalate "\n" (clusters.map fun c => c.Name) := by
    cases clusters with
    | nil => simp [writeClusterNames, String.intercalate]
    | cons cl rest =>
      rw [writeClusterNames_joined (cl :: rest).length rest cl 0 "" (by simp)]
      simp [String.intercalate]
  have hconcat : writeClusterNames clusters.length true 0 clusters ""
      = String.join (clusters.map fun c => c.Name) := by
    rw [writeClusterNames_concatenated]
    rfl
  refine ⟨?_, ?_, ?_⟩
  · simp [connectorsClustersRunE, hclusters, hjoined]
  · simp [connectorsClustersRunE, hclusters, hconcat]
  · intro hnil
    subst hnil
    constructor <;> simp [connectorsClustersRunE, hclusters, writeClusterNames]

/-- Witness of C14: the clusters `a` and `b`. -/
theorem connectors_clusters_names_text_witness :
    (connectorsClustersRunE twoClusterClient okPrinter okOutput true false).trace
      = [Event.GetConnectClusters, Event.stdout "a\nb\n"] ∧
    (connectorsClustersRunE twoClusterClient okPrinter okOutput true true).trace
      = [Event.GetConnectClusters, Event.stdout "ab\n"] := by
  have h := connectors_clusters_names_text twoClusterClient okPrinter okOutput
    [ConnectCluster.mk "a", ConnectCluster.mk "b"] rfl
  refine ⟨h.1.trans ?_, h.2.1.trans ?_⟩ <;> decide

/-! ### `topics --names --unwrap` and `topics keys --unwrap` -/

theorem sortStrings_sorted (values : List String) :
    (sortStrings values).Sorted (· ≤ ·) :=
  List.sorted_insertionSort (· ≤ ·) values

theorem sortStrings_perm (values : List String) : (sortStrings values).Perm values :=
  List.perm_insertionSort (· ≤ ·) values

theorem stdout_lines_no_printer (pre : Event) (hpre : pre.isPrinter = false)
    (lines : List String) :
    (pre :: lines.map fun v => Event.stdout (v ++ "\n")).filter Event.isPrinter = [] := by
  rw [List.filter_cons, hpre]
  simp [List.filter_eq_nil_iff, Event.isPrinter]

/-- C15: in `topics --names --unwrap` and `topics keys --unwrap`, for every list
of values the client returns, the command writes the values in increasing order
(a sorted permutation of the response), one write per value, each value
followed by a single line break, the last included; it hands nothing to the
table or JSON printer and returns nil. For an empty response nothing is written. -/
theorem topics_unwrap_writes_sorted_lines (client : TopicsClient) (out : Output)
    (names keys : List String) (hnames : client.GetTopicsNames = .ok names)
    (hkeys : client.GetAvailableTopicConfigKeys = .ok keys) :
    (topicsNamesRunE client out true
      = { err := none,
          trace := Event.GetTopicsNames ::
            (sortStrings names).map fun v => Event.stdout (v ++ "\n") }) ∧
    (topicsKeysRunE client out true
      = { err := none,
          trace := Event.GetAvailableTopicConfigKeys ::
            (sortStrings keys).map fun v => Event.stdout (v ++ "\n") }) ∧
    ((sortStrings names).Sorted (· ≤ ·) ∧ (sortStrings names).Perm names) ∧
    ((sortStrings keys).Sorted (· ≤ ·) ∧ (sortStrings keys).Perm keys) ∧
    (topicsNamesRunE client out true).trace.filter Event.isPrinter = [] ∧
    (topicsKeysRunE client out true).trace.filter Event.isPrinter = [] ∧
    (names = [] → topicsNamesRunE client out true
      = { err := none, trace := [Event.GetTopicsNames] }) ∧
    (keys = [] → topicsKeysRunE client out true
      = { err := none, trace := [Event.GetAvailableTopicConfigKeys] }) := by
  have h1 : topicsNamesRunE client out true
      = { err := none,
          trace := Event.GetTopicsNames ::
            (sortStrings names).map fun v => Event.stdout (v ++ "\n") } := by
    simp [topicsNamesRunE, hnames]
  have h2 : topicsKeysRunE client out true
      = { err := none,
          trace := Event.GetAvailableTopicConfigKeys ::
            (sortStrings keys).map fun v => Event.stdout (v ++ "\n") } := by
    simp [topicsKeysRunE, hkeys]
  refine ⟨h1, h2, ⟨sortStrings_sorted names, sortStrings_perm names⟩,
    ⟨sortStrings_sorted keys, sortStrings_perm keys⟩, ?_, ?_, ?_, ?_⟩
  · rw [h1]
    exact stdout_lines_no_printer Event.GetTopicsNames rfl _
  · rw [h2]
    exact stdout_lines_no_printer Event.GetAvailableTopicConfigKeys rfl _
  · intro hnil
    rw [h1, hnil]
    rfl
  · intro hnil
    rw [h2, hnil]
    rfl

/-- Witness of C15: three topic names and two config keys, returned unsorted. -/
theorem topics_unwrap_writes_sorted_lines_witness :
    topicsNamesRunE sampleTopicsClient okOutput true
      = { err := none,
          trace := [Event.GetTopicsNames, Event.stdout "audit\n", Event.stdout "logs\n",
            Event.stdout "orders\n"] } ∧
    topicsKeysRunE sampleTopicsClient okOutput true
      = { err := none,
          trace := [Event.GetAvailableTopicConfigKeys, Event.stdout "cleanup.policy\n",
            Event.stdout "retention.ms\n"] } := by
  have h := topics_unwrap_writes_sorted_lines sampleTopicsClient okOutput
    ["orders", "audit", "logs"] ["retention.ms", "cleanup.policy"] rfl rfl
  refine ⟨h.1.trans ?_, h.2.1.trans ?_⟩ <;>
    simp [sortStrings, List.insertionSort, List.orderedInsert] <;> decide

/-! ### `processors targets` -/

theorem filter_kind_rows (t : KubernetesTarget) (kind : String) :
    (kubernetesRows t).filter (fun r => decide (r.Kind = kind))
      = if kind = "Kubernetes" then kubernetesRows t else [] := by
  by_cases hk : kind = "Kubernetes"
  · subst hk
    simp [List.filter_eq_self, kubernetesRows]
  · have hk' : ¬ "Kubernetes" = kind := fun h => hk h.symm
    simp [hk, hk', List.filter_eq_nil_iff, kubernetesRows]

theorem filter_kind_kubernetesRows (ts : List KubernetesTarget) (kind : String) :
    ((ts.map kubernetesRows).flatten).filter (fun r => decide (r.Kind = kind))
      = if kind = "Kubernetes" then (ts.map kubernetesRows).flatten else [] := by
  induction ts with
  | nil => simp
  | cons t rest ih =>
    simp only [List.map_cons, List.flatten_cons, List.filter_append, ih, filter_kind_rows]
    by_cases hk : kind = "Kubernetes"
    · simp only [hk, if_true]
    · simp only [hk, if_false, List.append_nil]

theorem filter_kind_connectRows (cs : List KafkaConnectTarget) (kind : String) :
    (cs.map connectRow).filter (fun r => decide (r.Kind = kind))
      = if kind = "Connect" then cs.map connectRow else [] := by
  by_cases hk : kind = "Connect"
  · subst hk
    simp [List.filter_eq_self, connectRow]
  · have hk' : ¬ "Connect" = kind := fun h => hk h.symm
    simp [hk, hk', List.filter_eq_nil_iff, connectRow]

theorem filter_cluster_rows (t : KubernetesTarget) (clusterName : String) :
    (kubernetesRows t).filter (fun r => decide (r.ClusterName = clusterName))
      = if t.Cluster = clusterName then kubernetesRows t else [] := by
  by_cases ht : t.Cluster = clusterName
  · simp [ht, List.filter_eq_self, kubernetesRows]
  · simp [ht, List.filter_eq_nil_iff, kubernetesRows]

theorem filter_cluster_kubernetesRows (ts : List KubernetesTarget) (clusterName : String) :
    ((ts.map kubernetesRows).flatten).filter (fun r => decide (r.ClusterName = clusterName))
      = ((ts.filter fun t => decide (t.Cluster = clusterName)).map kubernetesRows).flatten := by
  induction ts with
  | nil => rfl
  | cons t rest ih =>
    simp only [List.map_cons, List.flatten_cons, List.filter_append, ih, List.filter_cons,
      filter_cluster_rows]
    by_cases ht : t.Cluster = clusterName
    · simp only [ht, if_true, decide_True, List.map_cons, List.flatten_cons]
    · simp only [ht, if_false, decide_False, List.nil_append, Bool.false_eq_true]

theorem filter_cluster_connectRows (cs : List KafkaConnectTarget) (clusterName : String) :
    (cs.map connectRow).filter (fun r => decide (r.ClusterName = clusterName))
      = (cs.filter fun c => decide (c.Cluster = clusterName)).map connectRow := by
  induction cs with
  | nil => rfl
  | cons c rest ih =>
    simp only [List.map_cons, List.filter_cons, ih]
    by_cases hc : c.Cluster = clusterName
    · simp [hc, connectRow]
    · simp [hc, connectRow]

theorem filter_any_cluster {α : Type} (l : List α) (f : α → String) :
    (l.filter fun t => decide (("" : String) = "" ∨ f t = "")) = l := by
  simp

theorem filter_named_cluster {α : Type} (l : List α) (f : α → String) (clusterName : String)
    (h : clusterName ≠ "") :
    (l.filter fun t => decide (clusterName = "" ∨ f t = clusterName))
      = l.filter fun t => decide (f t = clusterName) := by
  simp [h]

theorem listTargets_all (targets : DeploymentTargets) :
    listTargets targets "" ""
      = (targets.Kubernetes.map kubernetesRows).flatten ++ targets.Connect.map connectRow := by
  unfold listTargets
  rw [if_pos (Or.inl rfl), if_pos (Or.inl rfl), filter_any_cluster, filter_any_cluster]

/-- C16: in `processors targets` with no filter, for every `DeploymentTargets`
response the listing handed to the printer holds first one row of type
Kubernetes for each namespace of each Kubernetes target, in response order, then
one row of type Connect with empty namespace for each Connect target, in
response order, cluster name and version copied from the target. The fixture of
the tests (Kubernetes targets aks/prod and eks/dev, one Connect target) gives
exactly the rows aks, eks, my-kafka-connect. -/
theorem processors_targets_unfiltered_listing (targets : DeploymentTargets) (out : Output) :
    listTargets targets "" ""
      = (targets.Kubernetes.map fun t => t.Namespaces.map fun ns =>
          ({ Kind := "Kubernetes", ClusterName := t.Cluster, Namespace := ns,
             Version := t.Version } : ListTargetsResult)).flatten
        ++ (targets.Connect.map fun c =>
          ({ Kind := "Connect", ClusterName := c.Cluster, Namespace := "",
             Version := c.Version } : ListTargetsResult)) ∧
    (processorsTargetsRunE (.ok targets) out "" "").trace
      = [Event.GetDeploymentTargets,
         Event.printObject (Printable.targets (listTargets targets "" ""))] ∧
    listTargets targetList "" "" = [aksk8Res, eksk8Res, connectRes] := by
  refine ⟨?_, rfl, by decide⟩
  rw [listTargets_all]
  rfl

/-- C17: in `processors targets`, for every `DeploymentTargets` response, the
listing with `--target-type=kubernetes` is exactly the rows of type Kubernetes
of the unfiltered listing, in the same order, and with `--target-type=connect`
exactly its rows of type Connect; adding `--cluster-name=c` to any target type
keeps exactly the rows whose cluster name is c. On the fixture of the tests,
kubernetes gives aks and eks, kubernetes with aks gives aks alone, connect gives
my-kafka-connect. -/
theorem processors_targets_filtered_listing (targets : DeploymentTargets)
    (targetType clusterName : String) (hcluster : clusterName ≠ "") :
    listTargets targets "kubernetes" ""
      = (listTargets targets "" "").filter (fun r => decide (r.Kind = "Kubernetes")) ∧
    listTargets targets "connect" ""
      = (listTargets targets "" "").filter (fun r => decide (r.Kind = "Connect")) ∧
    listTargets targets targetType clusterName
      = (listTargets targets targetType "").filter
          (fun r => decide (r.ClusterName = clusterName)) ∧
    listTargets targetList "kubernetes" "" = [aksk8Res, eksk8Res] ∧
    listTargets targetList "kubernetes" "aks" = [aksk8Res] ∧
    listTargets targetList "connect" "" = [connectRes] := by
  refine ⟨?_, ?_, ?_, by decide, by decide, by decide⟩
  · have hk : listTargets targets "kubernetes" ""
        = (targets.Kubernetes.map kubernetesRows).flatten ++ [] := by
      unfold listTargets
      rw [if_pos (Or.inr rfl), if_neg (by decide), filter_any_cluster]
    rw [hk, listTargets_all, List.filter_append, filter_kind_kubernetesRows,
      filter_kind_connectRows, if_pos rfl, if_neg (by decide)]
  · have hc : listTargets targets "connect" "" = [] ++ targets.Connect.map connectRow := by
      unfold listTargets
      rw [if_neg (by decide), if_pos (Or.inr rfl), filter_any_cluster]
    rw [hc, listTargets_all, List.filter_append, filter_kind_kubernetesRows,
      filter_kind_connectRows, if_neg (by decide), if_pos rfl]
  · unfold listTargets
    rw [List.filter_append, filter_any_cluster, filter_any_cluster,
      filter_named_cluster _ _ _ hcluster, filter_named_cluster _ _ _ hcluster]
    congr 1
    · split
      · rw [filter_cluster_kubernetesRows]
      · rfl
    · split
      · rw [filter_cluster_connectRows]
      · rfl

/-- Witness of C17: the fixture of the tests with `--target-type=kubernetes
--cluster-name=aks`. -/
theorem processors_targets_filtered_listing_witness :
    ("aks" ≠ "") ∧
    listTargets targetList "kubernetes" "aks"
      = (listTargets targetList "kubernetes" "").filter
          (fun r => decide (r.ClusterName = "aks")) :=
  ⟨by decide,
    (processors_targets_filtered_listing targetList "kubernetes" "aks" (by decide)).2.2.1⟩

/-! ### `topic delete` -/

theorem checkRequiredFlags_name (name : String) (hname : name ≠ "") :
    checkRequiredFlags [("name", Value.str name)] = none := by
  simp [checkRequiredFlags, Value.isZero, hname]

/-- C18: in `topic delete` with a non-empty name: when `--partition` and
`--offset` are both non-negative (0 included), the only remote call is
`DeleteTopicRecords(name, partition, offset)`; when both are left at -1, the
only remote call is `DeleteTopic(name)`. Whatever the two values are, the run
makes exactly one of these two calls, never both. -/
theorem topicDelete_records_or_topic (client : TopicDeleteClient) (pr : Printer)
    (topicName : String) (fromPartition toOffset : Int) (hname : topicName ≠ "") :
    (0 ≤ fromPartition → 0 ≤ toOffset →
      (topicDeleteRunE client pr topicName fromPartition toOffset).trace.filter Event.isRemote
        = [Event.DeleteTopicRecords topicName fromPartition toOffset]) ∧
    (fromPartition = -1 → toOffset = -1 →
      (topicDeleteRunE client pr topicName fromPartition toOffset).trace.filter Event.isRemote
        = [Event.DeleteTopic topicName]) ∧
    ((topicDeleteRunE client pr topicName fromPartition toOffset).trace.filter Event.isRemote
        = [Event.DeleteTopicRecords topicName fromPartition toOffset] ∨
     (topicDeleteRunE client pr topicName fromPartition toOffset).trace.filter Event.isRemote
        = [Event.DeleteTopic topicName]) := by
  have hcheck := checkRequiredFlags_name topicName hname
  have hrec : 0 ≤ fromPartition → 0 ≤ toOffset →
      (topicDeleteRunE client pr topicName fromPartition toOffset).trace.filter Event.isRemote
        = [Event.DeleteTopicRecords topicName fromPartition toOffset] := by
    intro hp ho
    cases h : client.DeleteTopicRecords topicName fromPartition toOffset <;>
      simp [topicDeleteRunE, hcheck, hp, ho, h, Event.isRemote]
  have htopic : ¬ (0 ≤ fromPartition ∧ 0 ≤ toOffset) →
      (topicDeleteRunE client pr topicName fromPartition toOffset).trace.filter Event.isRemote
        = [Event.DeleteTopic topicName] := by
    intro hno
    have hno' : ¬ (fromPartition ≥ 0 ∧ toOffset ≥ 0) := hno
    cases h : client.DeleteTopic topicName <;>
      simp only [topicDeleteRunE, hcheck, hno', if_false, h] <;> rfl
  refine ⟨hrec, ?_, ?_⟩
  · intro hp ho
    exact htopic (by omega)
  · by_cases hboth : 0 ≤ fromPartition ∧ 0 ≤ toOffset
    · exact Or.inl (hrec hboth.1 hboth.2)
    · exact Or.inr (htopic hboth)

/-- Witness of C18: `topic delete --name=topic1 --partition=0 --offset=0`. -/
theorem topicDelete_records_or_topic_witness :
    ("topic1" ≠ "") ∧
    (topicDeleteRunE okTopicDeleteClient okPrinter "topic1" 0 0).trace.filter Event.isRemote
      = [Event.DeleteTopicRecords "topic1" 0 0] :=
  ⟨by decide,
    (topicDelete_records_or_topic okTopicDeleteClient okPrinter "topic1" 0 0 (by decide)).1
      (by decide) (by decide)⟩

/-- C19, evaluated where it fails: `topic delete --name=topic1 --partition=0` with
`--offset` left at -1, and `topic delete --name=topic1 --offset=5` with
`--partition` left at -1. In both runs the command calls `DeleteTopic` on the
whole topic and reports it marked for deletion. -/
theorem topicDelete_one_flag_deletes_topic :
    topicDeleteRunE okTopicDeleteClient okPrinter "topic1" 0 (-1)
      = { err := none,
          trace := [Event.DeleteTopic "topic1",
            Event.echo
              "Topic [%s] marked for deletion. This may take a few moments to have effect"
              [Arg.s "topic1"]] } ∧
    topicDeleteRunE okTopicDeleteClient okPrinter "topic1" (-1) 5
      = { err := none,
          trace := [Event.DeleteTopic "topic1",
            Event.echo
              "Topic [%s] marked for deletion. This may take a few moments to have effect"
              [Arg.s "topic1"]] } := by
  constructor <;>
    simp [topicDeleteRunE, checkRequiredFlags, Value.isZero, okTopicDeleteClient, okPrinter]

/-! ### The dataset update commands -/

theorem dropWhile_all_iff {α : Type} (p : α → Bool) (l : List α) :
    (∀ x ∈ l.dropWhile p, p x = true) ↔ ∀ x ∈ l, p x = true := by
  constructor
  · intro h
    have hnil : l.dropWhile p = [] := by
      by_contra hne
      have hhead := List.head_dropWhile_not p l hne
      have := h _ (List.head_mem hne)
      rw [hhead] at this
      exact Bool.false_ne_true this
    exact List.dropWhile_eq_nil_iff.mp hnil
  · intro h
    rw [List.dropWhile_eq_nil_iff.mpr h]
    intro x hx
    exact absurd hx (List.not_mem_nil x)

theorem trimSpace_blank_iff (s : String) :
    (TrimSpace s).length = 0 ↔ ∀ c ∈ s.toList, isSpace c = true := by
  unfold TrimSpace
  rw [String.length_mk, List.length_reverse, List.length_eq_zero, List.dropWhile_eq_nil_iff]
  simp only [List.mem_reverse]
  exact dropWhile_all_iff isSpace s.toList

/-- C20: `dataset update-description` fails with "--description value cannot be
blank" while making no remote call exactly when the description is empty after
trimming white space, that is when it consists of white space only; otherwise
its only remote call is `UpdateDatasetDescription` with the description exactly
as given, untrimmed. `dataset update-tags` fails with "Tags cannot be empty"
while making no remote call exactly when the tag list is empty; otherwise its
only remote call is `UpdateDatasetTags` with the tags unchanged and in order. -/
theorem dataset_update_rejects_blank_values (client : DatasetClient) (pr : Printer)
    (connection name description : String) (tags : List String) :
    ((TrimSpace description).length = 0 ↔ ∀ c ∈ description.toList, isSpace c = true) ∧
    ((TrimSpace description).length = 0 ↔
      ((updateDatasetDescriptionRunE client pr connection name description).err
          = some (Error.new "--description value cannot be blank") ∧
        (updateDatasetDescriptionRunE client pr connection name description).trace.filter
          Event.isRemote = [])) ∧
    (¬ (TrimSpace description).length = 0 →
      (updateDatasetDescriptionRunE client pr connection name description).trace.filter
        Event.isRemote = [Event.UpdateDatasetDescription connection name description]) ∧
    (tags = [] ↔
      ((updateDatasetTagsRunE client pr connection name tags).err
          = some (Error.new "Tags cannot be empty") ∧
        (updateDatasetTagsRunE client pr connection name tags).trace.filter
          Event.isRemote = [])) ∧
    (tags ≠ [] →
      (updateDatasetTagsRunE client pr connection name tags).trace.filter Event.isRemote
        = [Event.UpdateDatasetTags connection name tags]) := by
  have hdesc : ¬ (TrimSpace description).length = 0 →
      (updateDatasetDescriptionRunE client pr connection name description).trace.filter
        Event.isRemote = [Event.UpdateDatasetDescription connection name description] := by
    intro hb
    cases h : client.UpdateDatasetDescription connection name description <;>
      simp [updateDatasetDescriptionRunE, hb, h, Event.isRemote]
  have htags : tags ≠ [] →
      (updateDatasetTagsRunE client pr connection name tags).trace.filter Event.isRemote
        = [Event.UpdateDatasetTags connection name tags] := by
    intro ht
    cases h : client.UpdateDatasetTags connection name tags <;>
      simp [updateDatasetTagsRunE, ht, h, Event.isRemote]
  refine ⟨trimSpace_blank_iff description, ⟨?_, ?_⟩, hdesc, ⟨?_, ?_⟩, htags⟩
  · intro hb
    simp [updateDatasetDescriptionRunE, hb, Event.isRemote]
  · rintro ⟨_, hnone⟩
    by_contra hb
    rw [hdesc hb] at hnone
    exact List.cons_ne_nil _ _ hnone
  · intro ht
    simp [updateDatasetTagsRunE, ht]
  · rintro ⟨_, hnone⟩
    by_contra ht
    rw [htags ht] at hnone
    exact List.cons_ne_nil _ _ hnone

/-! ### The dataset remove commands -/

/-- C21: for every connection and name, and whatever else is passed,
`dataset remove-description` starts with, and makes as its only remote call,
`UpdateDatasetDescription(connection, name, "")`, and `dataset remove-tags`
likewise `UpdateDatasetTags(connection, name, [])`: nothing is validated
locally before the call. When the call fails, the command returns the client's
error unchanged. -/
theorem dataset_remove_sends_empty_value (client : DatasetClient) (pr : Printer)
    (connection name : String) (args : List String) :
    ((removeDatasetDescriptionRunE client pr connection name args).trace.head?
        = some (Event.UpdateDatasetDescription connection name "") ∧
      (removeDatasetDescriptionRunE client pr connection name args).trace.filter Event.isRemote
        = [Event.UpdateDatasetDescription connection name ""]) ∧
    ((removeDatasetTagsRunE client pr connection name args).trace.head?
        = some (Event.UpdateDatasetTags connection name []) ∧
      (removeDatasetTagsRunE client pr connection name args).trace.filter Event.isRemote
        = [Event.UpdateDatasetTags connection name []]) ∧
    (∀ err, client.UpdateDatasetDescription connection name "" = some err →
      removeDatasetDescriptionRunE client pr connection name args
        = { err := some err, trace := [Event.UpdateDatasetDescription connection name ""] }) ∧
    (∀ err, client.UpdateDatasetTags connection name [] = some err →
      removeDatasetTagsRunE client pr connection name args
        = { err := some err, trace := [Event.UpdateDatasetTags connection name []] }) := by
  refine ⟨?_, ?_, ?_, ?_⟩
  · cases h : client.UpdateDatasetDescription connection name "" <;>
      simp [removeDatasetDescriptionRunE, h, Event.isRemote]
  · cases h : client.UpdateDatasetTags connection name [] <;>
      simp [removeDatasetTagsRunE, h, Event.isRemote]
  · intro err h
    simp [removeDatasetDescriptionRunE, h]
  · intro err h
    simp [removeDatasetTagsRunE, h]

/-- Witness of C21: `dataset remove-description` and `dataset remove-tags` on
dataset `kafka` / `orders` against a client that refuses both calls. -/
theorem dataset_remove_sends_empty_value_witness :
    removeDatasetDescriptionRunE failingDatasetClient okPrinter "kafka" "orders" ["extra"]
      = { err := some (Error.other "forbidden"),
          trace := [Event.UpdateDatasetDescription "kafka" "orders" ""] } ∧
    removeDatasetTagsRunE failingDatasetClient okPrinter "kafka" "orders" ["extra"]
      = { err := some (Error.other "forbidden"),
          trace := [Event.UpdateDatasetTags "kafka" "orders" []] } :=
  ⟨(dataset_remove_sends_empty_value failingDatasetClient okPrinter "kafka" "orders"
      ["extra"]).2.2.1 (Error.other "forbidden") rfl,
   (dataset_remove_sends_empty_value failingDatasetClient okPrinter "kafka" "orders"
      ["extra"]).2.2.2 (Error.other "forbidden") rfl⟩

/-! ### `topic update`: name and partitions -/

/-- C22: in `topic update`, every `UpdateTopic` call of a run carries the
resolved payload name and, as partitions, the Partitions bound on the payload
from the file when that is non-zero, else the value of `--partitions`. With a
non-empty name, unless the `--configs` value is neither a readable file nor
valid JSON, the run makes exactly that call and no other remote call. -/
theorem topicUpdate_name_and_partitions (client : TopicClient) (env : Helpers) (pr : Printer)
    (topic : CreateTopicPayload) (configsRaw : String) (partitions : Int) :
    (∀ n cfgs p,
      Event.UpdateTopic n cfgs p ∈ (topicUpdateRunE client env pr topic configsRaw partitions).trace →
      n = topic.TopicName ∧
      p = if topic.Partitions ≠ 0 then topic.Partitions else partitions) ∧
    (topic.TopicName ≠ "" →
      ¬ (configsRaw ≠ "" ∧ (env.tryReadFile configsRaw topic.Configs).1 ≠ none ∧
          (env.jsonUnmarshal configsRaw []).1 ≠ none) →
      ∃ cfgs, (topicUpdateRunE client env pr topic configsRaw partitions).trace.filter
        Event.isRemote
          = [Event.UpdateTopic topic.TopicName cfgs
              (if topic.Partitions ≠ 0 then topic.Partitions else partitions)]) := by
  constructor
  · intro n cfgs p hmem
    unfold topicUpdateRunE at hmem
    generalize (if topic.Partitions ≠ 0 then topic.Partitions else partitions) = q at hmem ⊢
    cases hcheck : checkRequiredFlags [("name", Value.str topic.TopicName)] with
    | some e => simp [hcheck] at hmem
    | none =>
      simp only [hcheck] at hmem
      by_cases hraw : configsRaw = ""
      · simp only [hraw, ne_eq, not_true_eq_false, if_false] at hmem
        cases hu : client.UpdateTopic topic.TopicName [topic.Configs] q <;>
          simp [hu] at hmem <;> simp [hmem]
      · simp only [ne_eq, hraw, not_false_eq_true, if_true] at hmem
        rcases hr : env.tryReadFile configsRaw topic.Configs with ⟨_ | e, cfg⟩
        · simp only [hr] at hmem
          cases hu : client.UpdateTopic topic.TopicName [cfg] q <;>
            simp [hu] at hmem <;> simp [hmem]
        · simp only [hr] at hmem
          rcases hj : env.jsonUnmarshal configsRaw [] with ⟨_ | e', cfg'⟩
          · simp only [hj] at hmem
            cases hu : client.UpdateTopic topic.TopicName [cfg] q <;>
              simp [hu] at hmem <;> simp [hmem]
          · simp [hj] at hmem
  · intro hname hres
    have hcheck : checkRequiredFlags [("name", Value.str topic.TopicName)] = none := by
      simp [checkRequiredFlags, Value.isZero, hname]
    unfold topicUpdateRunE
    generalize (if topic.Partitions ≠ 0 then topic.Partitions else partitions) = q
    simp only [hcheck]
    by_cases hraw : configsRaw = ""
    · refine ⟨[topic.Configs], ?_⟩
      simp only [hraw, ne_eq, not_true_eq_false, if_false]
      cases hu : client.UpdateTopic topic.TopicName [topic.Configs] q <;>
        simp [hu, Event.isRemote]
    · simp only [ne_eq, hraw, not_false_eq_true, if_true]
      rcases hr : env.tryReadFile configsRaw topic.Configs with ⟨_ | e, cfg⟩
      · refine ⟨[cfg], ?_⟩
        simp only []
        cases hu : client.UpdateTopic topic.TopicName [cfg] q <;>
          simp [hu, Event.isRemote]
      · rcases hj : env.jsonUnmarshal configsRaw [] with ⟨_ | e', cfg'⟩
        · refine ⟨[cfg], ?_⟩
          simp only []
          cases hu : client.UpdateTopic topic.TopicName [cfg] q <;>
            simp [hu, Event.isRemote]
        · exact absurd ⟨hraw, by simp [hr], by simp [hj]⟩ hres

/-- Witness of C22: `topic update --name=t --partitions=4` with a file that binds
6 partitions, and the same without a file. -/
theorem topicUpdate_name_and_partitions_witness :
    (∃ cfgs, (topicUpdateRunE okTopicClient (fileHelpers []) okPrinter
        { TopicName := "t", Replication := 0, Partitions := 6, Configs := [] } "" 4).trace.filter
        Event.isRemote = [Event.UpdateTopic "t" cfgs 6]) ∧
    (∃ cfgs, (topicUpdateRunE okTopicClient (fileHelpers []) okPrinter
        { TopicName := "t", Replication := 0, Partitions := 0, Configs := [] } "" 4).trace.filter
        Event.isRemote = [Event.UpdateTopic "t" cfgs 4]) :=
  ⟨(topicUpdate_name_and_partitions okTopicClient (fileHelpers []) okPrinter
      { TopicName := "t", Replication := 0, Partitions := 6, Configs := [] } "" 4).2
      (by decide) (by simp),
   (topicUpdate_name_and_partitions okTopicClient (fileHelpers []) okPrinter
      { TopicName := "t", Replication := 0, Partitions := 0, Configs := [] } "" 4).2
      (by decide) (by simp)⟩

/-! ### `connector update`: the name of the existing connector -/

theorem connectorUpdate_of_unresolved (client : ConnectClient) (env : Helpers) (pr : Printer)
    (silent : Bool) (clusterName name configRaw : String) (args : List String) (err : Error)
    (h : resolveConnectorPayload env clusterName name configRaw args = .error err) :
    ∃ ev, ev.isRemote = false ∧
      connectorUpdateRunE client env pr silent clusterName name configRaw args
        = { err := some err, trace := [ev] } := by
  unfold resolveConnectorPayload at h
  unfold connectorUpdateRunE
  cases args with
  | nil =>
    refine ⟨Event.tryReadFile configRaw, rfl, ?_⟩
    rcases h1 : env.tryReadFile configRaw [] with ⟨_ | e, cfg⟩
    · simp only [h1] at h ⊢
      cases h2 : ApplyAndValidateName { ClusterAlias := clusterName, Name := name, Config := cfg } with
      | error e2 =>
        simp only [h2, Except.error.injEq] at h ⊢
        rw [h]
      | ok c2 =>
        simp only [h2] at h ⊢
        cases h3 : checkRequiredFlags
          [("clusterName", Value.str c2.ClusterAlias), ("name", Value.str c2.Name)] with
        | some e3 =>
          simp only [h3, Except.error.injEq] at h ⊢
          rw [h]
        | none => simp [h3] at h
    · simp only [h1, Except.error.injEq] at h ⊢
      rw [h]
  | cons path rest =>
    refine ⟨Event.loadFile path, rfl, ?_⟩
    simp only [] at h ⊢
    cases h1 : env.loadFile path { ClusterAlias := clusterName, Name := name, Config := [] } with
    | error e1 =>
      simp only [h1, Except.error.injEq] at h ⊢
      rw [h]
    | ok c1 =>
      simp only [h1] at h ⊢
      cases h2 : ApplyAndValidateName c1 with
      | error e2 =>
        simp only [h2, Except.error.injEq] at h ⊢
        rw [h]
      | ok c2 =>
        simp only [h2] at h ⊢
        cases h3 : checkRequiredFlags
          [("clusterName", Value.str c2.ClusterAlias), ("name", Value.str c2.Name)] with
        | some e3 =>
          simp only [h3, Except.error.injEq] at h ⊢
          rw [h]
        | none => simp [h3] at h

theorem name_entry_eq_iff (config : KV) (name : String) :
    (config.get "name").getD Value.nil = Value.str name
      ↔ config.get "name" = some (Value.str name) := by
  cases h : config.get "name" with
  | none => simp
  | some v => simp

theorem connectorUpdateSend_remote (client : ConnectClient) (pr : Printer) (silent : Bool)
    (connector : CreateUpdateConnectorPayload) (got : List Event) :
    (connectorUpdateSend client pr silent connector got).trace.filter Event.isRemote
      = got.filter Event.isRemote ++
        [Event.UpdateConnector connector.ClusterAlias connector.Name connector.Config] := by
  unfold connectorUpdateSend
  cases client.UpdateConnector connector.ClusterAlias connector.Name connector.Config <;>
    cases silent <;> simp [List.filter_append, Event.isRemote]

theorem filter_remote_local_call (ev : Event) (clusterName name : String)
    (hev : ev.isRemote = false) :
    [ev, Event.GetConnector clusterName name].filter Event.isRemote
      = [Event.GetConnector clusterName name] := by
  simp only [List.filter_cons, hev, Bool.false_eq_true, if_false]
  rfl

/-- C23: in `connector update`, `UpdateConnector` is called only if the payload
resolved, `GetConnector` succeeded, and the existing connector's config is nil
or has a name entry equal to the payload name; in that case the remote calls are
`GetConnector` then `UpdateConnector`. If the existing config is not nil and its
name entry is absent or different, the command fails with the error built from
the format `connector config["name"] '%s' does not match with the existing one
'%s'`, the payload name and the existing value, and `GetConnector` is its only
remote call. -/
theorem connector_update_checks_existing_name (client : ConnectClient) (env : Helpers)
    (pr : Printer) (silent : Bool) (clusterName name configRaw : String) (args : List String) :
    (∀ c n cfg,
      Event.UpdateConnector c n cfg
        ∈ (connectorUpdateRunE client env pr silent clusterName name configRaw args).trace →
      ∃ connector existing,
        resolveConnectorPayload env clusterName name configRaw args = .ok connector ∧
        client.GetConnector connector.ClusterAlias connector.Name = .ok existing ∧
        (existing.Config = none ∨
          ∃ config, existing.Config = some config ∧
            config.get "name" = some (Value.str connector.Name))) ∧
    (∀ connector existing,
      resolveConnectorPayload env clusterName name configRaw args = .ok connector →
      client.GetConnector connector.ClusterAlias connector.Name = .ok existing →
      (existing.Config = none ∨
        ∃ config, existing.Config = some config ∧
          config.get "name" = some (Value.str connector.Name)) →
      (connectorUpdateRunE client env pr silent clusterName name configRaw args).trace.filter
        Event.isRemote
        = [Event.GetConnector connector.ClusterAlias connector.Name,
           Event.UpdateConnector connector.ClusterAlias connector.Name connector.Config]) ∧
    (∀ connector existing config,
      resolveConnectorPayload env clusterName name configRaw args = .ok connector →
      client.GetConnector connector.ClusterAlias connector.Name = .ok existing →
      existing.Config = some config →
      config.get "name" ≠ some (Value.str connector.Name) →
      (connectorUpdateRunE client env pr silent clusterName name configRaw args).err
        = some (Error.formatted
            "connector config[\"name\"] '%s' does not match with the existing one '%s'"
            [Value.str connector.Name, (config.get "name").getD Value.nil]) ∧
      (connectorUpdateRunE client env pr silent clusterName name configRaw args).trace.filter
        Event.isRemote = [Event.GetConnector connector.ClusterAlias connector.Name]) := by
  refine ⟨?_, ?_, ?_⟩
  · intro c n cfg hmem
    cases hres : resolveConnectorPayload env clusterName name configRaw args with
    | error err =>
      obtain ⟨ev, hev, hrun⟩ := connectorUpdate_of_unresolved client env pr silent clusterName
        name configRaw args err hres
      rw [hrun] at hmem
      simp only [List.mem_singleton] at hmem
      rw [← hmem] at hev
      exact absurd hev (by simp [Event.isRemote])
    | ok connector =>
      obtain ⟨ev, hev, _, _, hrun⟩ := connectorUpdate_of_resolved client env pr silent
        clusterName name configRaw args connector hres
      rw [hrun] at hmem
      have hne : Event.UpdateConnector c n cfg ≠ ev := by
        intro h
        rw [← h] at hev
        exact absurd hev (by simp [Event.isRemote])
      cases hget : client.GetConnector connector.ClusterAlias connector.Name with
      | error e =>
        simp [hget, hne] at hmem
      | ok existing =>
        refine ⟨connector, existing, rfl, hget, ?_⟩
        simp only [hget] at hmem
        cases hc : existing.Config with
        | none => exact Or.inl rfl
        | some config =>
          refine Or.inr ⟨config, rfl, ?_⟩
          by_contra hno
          have hno' : (config.get "name").getD Value.nil ≠ Value.str connector.Name :=
            fun h => hno ((name_entry_eq_iff config connector.Name).mp h)
          simp [hc, hno', hne] at hmem
  · intro connector existing hres hget hname
    obtain ⟨ev, hev, _, _, hrun⟩ := connectorUpdate_of_resolved client env pr silent
      clusterName name configRaw args connector hres
    have hsend : connectorUpdateRunE client env pr silent clusterName name configRaw args
        = connectorUpdateSend client pr silent connector
            [ev, Event.GetConnector connector.ClusterAlias connector.Name] := by
      rw [hrun, hget]
      simp only []
      rcases hname with hnil | ⟨config, hc, hentry⟩
      · rw [hnil]
      · rw [hc]
        simp [(name_entry_eq_iff config connector.Name).mpr hentry]
    rw [hsend, connectorUpdateSend_remote, filter_remote_local_call ev _ _ hev]
    rfl
  · intro connector existing config hres hget hc hno
    obtain ⟨ev, hev, _, _, hrun⟩ := connectorUpdate_of_resolved client env pr silent
      clusterName name configRaw args connector hres
    have hno' : (config.get "name").getD Value.nil ≠ Value.str connector.Name :=
      fun h => hno ((name_entry_eq_iff config connector.Name).mp h)
    have hfail : connectorUpdateRunE client env pr silent clusterName name configRaw args
        = { err := some (Error.formatted
              "connector config[\"name\"] '%s' does not match with the existing one '%s'"
              [Value.str connector.Name, (config.get "name").getD Value.nil]),
            trace := [ev, Event.GetConnector connector.ClusterAlias connector.Name] } := by
      rw [hrun, hget]
      simp only [hc]
      simp [hno']
    rw [hfail]
    exact ⟨rfl, filter_remote_local_call ev _ _ hev⟩

/-- Witness of C23: `connector update --clusterName=a --name=x` while the existing
connector's config is named `other`. -/
theorem connector_update_checks_existing_name_witness :
    (connectorUpdateRunE otherNameClient (fileHelpers []) okPrinter false "a" "x" "" []).err
      = some (Error.formatted
          "connector config[\"name\"] '%s' does not match with the existing one '%s'"
          [Value.str "x", Value.str "other"]) ∧
    (connectorUpdateRunE otherNameClient (fileHelpers []) okPrinter false "a" "x" ""
      []).trace.filter Event.isRemote = [Event.GetConnector "a" "x"] :=
  (connector_update_checks_existing_name otherNameClient (fileHelpers []) okPrinter false
    "a" "x" "" []).2.2
    { ClusterAlias := "a", Name := "x", Config := [("name", Value.str "x")] }
    { ClusterName := "a", Name := "x", Config := some [("name", Value.str "other")] }
    [("name", Value.str "other")]
    (by simp [resolveConnectorPayload, fileHelpers, ApplyAndValidateName, GoMap.get,
      GoMap.set, checkRequiredFlags, Value.isZero])
    rfl rfl (by decide)

/-! ### `connectors plugins` -/

theorem foldl_keep {α β : Type} (l : List α) (b : β) (f : β → α → β)
    (h : ∀ b a, f b a = b) : l.foldl f b = b := by
  induction l generalizing b with
  | nil => rfl
  | cons a rest ih => rw [List.foldl_cons, h, ih]

/-- C24, evaluated where it fails: `connectors plugins --clusterName=c` for a
cluster that lists a plugin of version `null`, one of empty version and one of
version `1.0.0`. The list handed to the printer is the fetched list as it came:
the first two plugins still carry `null` and the empty string, not `X.X.X`. The
same holds of every fetched list: the loop over the plugins leaves it unchanged. -/
theorem connectors_plugins_versions_unchanged :
    connectorsPluginsRunE samplePluginsClient okPrinter "c"
      = { err := none,
          trace := [Event.GetConnectorPlugins "c",
            Event.printJSON (Printable.plugins
              [{ Class := "io.sink", Kind := "sink", Version := "null" },
               { Class := "io.source", Kind := "source", Version := "" },
               { Class := "io.file", Kind := "source", Version := "1.0.0" }])] } ∧
    connectorsPluginsRunE samplePluginsClient okPrinter "*"
      = { err := none,
          trace := [Event.GetConnectClusters, Event.GetConnectorPlugins "c",
            Event.printJSON (Printable.plugins
              [{ Class := "io.sink", Kind := "sink", Version := "null" },
               { Class := "io.source", Kind := "source", Version := "" },
               { Class := "io.file", Kind := "source", Version := "1.0.0" }])] } ∧
    (∀ plugins, defaultVersions plugins = plugins) := by
  have hkeep : ∀ plugins, defaultVersions plugins = plugins := by
    intro plugins
    exact foldl_keep plugins plugins _ (fun _ _ => rfl)
  refine ⟨?_, ?_, hkeep⟩
  · simp [connectorsPluginsRunE, samplePluginsClient, okPrinter, hkeep]
  · simp [connectorsPluginsRunE, collectPlugins, samplePluginsClient, okPrinter, hkeep]

/-! ### `alert setting condition set` -/

theorem submitConditions_all_ok (client : AlertClient) (alertID : Int)
    (conditions : List String) (soFar : List Event)
    (hok : ∀ c ∈ conditions, client.CreateOrUpdateAlertSettingCondition alertID c = none) :
    (submitConditions client alertID conditions soFar).err = none ∧
    (submitConditions client alertID conditions soFar).trace.filter Event.isRemote
      = soFar.filter Event.isRemote ++
        conditions.map (fun c => Event.CreateOrUpdateAlertSettingCondition alertID c) := by
  induction conditions generalizing soFar with
  | nil => simp [submitConditions]
  | cons c rest ih =>
    have hc := hok c (List.mem_cons_self _ _)
    have ih' := ih (soFar ++ [Event.CreateOrUpdateAlertSettingCondition alertID c,
      Event.echo "Condition [id=%d] added" [Arg.i alertID]])
      (fun c' hc' => hok c' (List.mem_cons_of_mem _ hc'))
    rw [submitConditions]
    simp only [hc]
    refine ⟨ih'.1, ?_⟩
    rw [ih'.2]
    simp [List.filter_append, Event.isRemote]

theorem submitConditions_first_failure (client : AlertClient) (alertID : Int)
    (pre post : List String) (condition : String) (err : Error) (soFar : List Event)
    (hpre : ∀ c ∈ pre, client.CreateOrUpdateAlertSettingCondition alertID c = none)
    (hfail : client.CreateOrUpdateAlertSettingCondition alertID condition = some err) :
    (submitConditions client alertID (pre ++ condition :: post) soFar).err = some err ∧
    (submitConditions client alertID (pre ++ condition :: post) soFar).trace.filter
      Event.isRemote
      = soFar.filter Event.isRemote ++
        (pre ++ [condition]).map
          (fun c => Event.CreateOrUpdateAlertSettingCondition alertID c) := by
  induction pre generalizing soFar with
  | nil =>
    simp [submitConditions, hfail, List.filter_append, Event.isRemote]
  | cons c rest ih =>
    have hc := hpre c (List.mem_cons_self _ _)
    have ih' := ih (soFar ++ [Event.CreateOrUpdateAlertSettingCondition alertID c,
      Event.echo "Condition [id=%d] added" [Arg.i alertID]])
      (fun c' hc' => hpre c' (List.mem_cons_of_mem _ hc'))
    rw [List.cons_append, submitConditions]
    simp only [hc]
    refine ⟨ih'.1, ?_⟩
    rw [ih'.2]
    simp [List.filter_append, Event.isRemote]

/-- C25: in `alert setting condition set`, when the file-bound payload holds a
non-empty Conditions list, the conditions are submitted in list order, each
under the file's AlertID. If all submissions succeed the remote calls are one
`CreateOrUpdateAlertSettingCondition` per condition, as many as the list is
long, and the command returns nil. At the first failing submission the command
returns its error, having submitted the conditions up to and including that one
and none after it. The flag-bound alert and condition play no part: the run is
the same whatever they are, so the required-flags check is skipped. When the
list is empty, the check on alert and condition decides: if it fails its error
is returned with no call made, if it passes exactly one call is made, with the
flag-bound alert ID and condition. -/
theorem alert_condition_set_submits_in_order (client : AlertClient) (pr : Printer)
    (conds : SettingConditionPayloads) (cond : SettingConditionPayload) :
    (conds.Conditions ≠ [] →
      (∀ c ∈ conds.Conditions,
        client.CreateOrUpdateAlertSettingCondition conds.AlertID c = none) →
      (alertConditionSetRunE client pr conds cond).err = none ∧
      (alertConditionSetRunE client pr conds cond).trace.filter Event.isRemote
        = conds.Conditions.map
            (fun c => Event.CreateOrUpdateAlertSettingCondition conds.AlertID c) ∧
      ((alertConditionSetRunE client pr conds cond).trace.filter Event.isRemote).length
        = conds.Conditions.length) ∧
    (∀ pre post condition err, conds.Conditions = pre ++ condition :: post →
      (∀ c ∈ pre, client.CreateOrUpdateAlertSettingCondition conds.AlertID c = none) →
      client.CreateOrUpdateAlertSettingCondition conds.AlertID condition = some err →
      (alertConditionSetRunE client pr conds cond).err = some err ∧
      (alertConditionSetRunE client pr conds cond).trace.filter Event.isRemote
        = (pre ++ [condition]).map
            (fun c => Event.CreateOrUpdateAlertSettingCondition conds.AlertID c)) ∧
    (conds.Conditions ≠ [] → ∀ cond' pr',
      (alertConditionSetRunE client pr' conds cond').trace
        = (alertConditionSetRunE client pr conds cond).trace ∧
      (alertConditionSetRunE client pr' conds cond').err
        = (alertConditionSetRunE client pr conds cond).err) ∧
    (conds.Conditions = [] →
      (∀ err, checkRequiredFlags
          [("alert", Value.int cond.AlertID), ("condition", Value.str cond.Condition)]
          = some err →
        alertConditionSetRunE client pr conds cond = { err := some err, trace := [] }) ∧
      (cond.AlertID ≠ 0 → cond.Condition ≠ "" →
        (alertConditionSetRunE client pr conds cond).trace.filter Event.isRemote
          = [Event.CreateOrUpdateAlertSettingCondition cond.AlertID cond.Condition])) := by
  have hloop : conds.Conditions ≠ [] → ∀ cond' pr',
      alertConditionSetRunE client pr' conds cond'
        = submitConditions client conds.AlertID conds.Conditions [] := by
    intro hne cond' pr'
    have hpos : conds.Conditions.length > 0 := List.length_pos.mpr hne
    simp [alertConditionSetRunE, hpos]
  refine ⟨?_, ?_, ?_, ?_⟩
  · intro hne hok
    rw [hloop hne cond pr]
    obtain ⟨herr, htrace⟩ := submitConditions_all_ok client conds.AlertID conds.Conditions []
      hok
    refine ⟨herr, by simpa using htrace, ?_⟩
    rw [htrace]
    simp
  · intro pre post condition err hsplit hpre hfail
    have hne : conds.Conditions ≠ [] := by
      rw [hsplit]
      simp
    rw [hloop hne cond pr, hsplit]
    obtain ⟨herr, htrace⟩ := submitConditions_first_failure client conds.AlertID pre post
      condition err [] hpre hfail
    exact ⟨herr, by simpa using htrace⟩
  · intro hne cond' pr'
    rw [hloop hne cond' pr', hloop hne cond pr]
    exact ⟨rfl, rfl⟩
  · intro hnil
    constructor
    · intro err hcheck
      simp [alertConditionSetRunE, hnil, hcheck]
    · intro hid hcondition
      have hcheck : checkRequiredFlags
          [("alert", Value.int cond.AlertID), ("condition", Value.str cond.Condition)]
          = none := by
        simp [checkRequiredFlags, Value.isZero, hid, hcondition]
      cases h : client.CreateOrUpdateAlertSettingCondition cond.AlertID cond.Condition <;>
        simp [alertConditionSetRunE, hnil, hcheck, h, Event.isRemote]

/-- Witness of C25: a file with alert 1001 and the conditions `lag`, `bad`,
`late`, where the client rejects `bad`; the flags are left unset. -/
theorem alert_condition_set_submits_in_order_witness :
    (alertConditionSetRunE sampleAlertClient okPrinter
        { AlertID := 1001, Conditions := ["lag", "bad", "late"] }
        { AlertID := 0, Condition := "" }).err = some (Error.other "rejected") ∧
    (alertConditionSetRunE sampleAlertClient okPrinter
        { AlertID := 1001, Conditions := ["lag", "bad", "late"] }
        { AlertID := 0, Condition := "" }).trace.filter Event.isRemote
      = (["lag"] ++ ["bad"]).map
          (fun c => Event.CreateOrUpdateAlertSettingCondition 1001 c) :=
  (alert_condition_set_submits_in_order sampleAlertClient okPrinter
    { AlertID := 1001, Conditions := ["lag", "bad", "late"] }
    { AlertID := 0, Condition := "" }).2.1 ["lag"] ["late"] "bad" (Error.other "rejected")
    rfl (by intro c hc; simp at hc; subst hc; rfl) rfl

/-! ### `alert setting` -/

/-- C26: in `alert setting --id=N` every run makes exactly one remote call:
`EnableAlertSetting(N, enable)` when the `--enable` flag was given on the
command line, `GetAlertSetting(N)` when it was not; so the first is called if
and only if the flag was given, and never both. With `--enable=false` and a
call that succeeds, the setting is disabled and the run reports "disabled",
handing nothing to the printer. -/
theorem alert_setting_one_remote_call (client : AlertClient) (pr : Printer) (out : Output)
    (id : Int) (enable enableChanged : Bool) :
    (alertSettingRunE client pr out id enable enableChanged).trace.filter Event.isRemote
      = (if enableChanged then [Event.EnableAlertSetting id enable]
         else [Event.GetAlertSetting id]) ∧
    (Event.EnableAlertSetting id enable
        ∈ (alertSettingRunE client pr out id enable enableChanged).trace
      ↔ enableChanged = true) ∧
    (Event.GetAlertSetting id ∈ (alertSettingRunE client pr out id enable enableChanged).trace
      ↔ enableChanged = false) ∧
    (client.EnableAlertSetting id false = none →
      alertSettingRunE client pr out id false true
        = { err := pr.echo "Alert setting [%d] disabled" [Arg.i id],
            trace := [Event.EnableAlertSetting id false,
              Event.echo "Alert setting [%d] disabled" [Arg.i id]] }) := by
  refine ⟨?_, ?_, ?_, ?_⟩
  · cases enableChanged
    · cases h : client.GetAlertSetting id <;>
        simp [alertSettingRunE, h, Event.isRemote]
    · cases h : client.EnableAlertSetting id enable <;> cases enable <;>
        simp [alertSettingRunE, h, Event.isRemote]
  · cases enableChanged
    · cases h : client.GetAlertSetting id <;> simp [alertSettingRunE, h]
    · cases h : client.EnableAlertSetting id enable <;> cases enable <;>
        simp [alertSettingRunE, h]
  · cases enableChanged
    · cases h : client.GetAlertSetting id <;> simp [alertSettingRunE, h]
    · cases h : client.EnableAlertSetting id enable <;> cases enable <;>
        simp [alertSettingRunE, h]
  · intro h
    simp [alertSettingRunE, h]

/-- Witness of C26: `alert setting --id=1001 --enable=false`. -/
theorem alert_setting_one_remote_call_witness :
    alertSettingRunE sampleAlertClient okPrinter okOutput 1001 false true
      = { err := okPrinter.echo "Alert setting [%d] disabled" [Arg.i 1001],
          trace := [Event.EnableAlertSetting 1001 false,
            Event.echo "Alert setting [%d] disabled" [Arg.i 1001]] } :=
  (alert_setting_one_remote_call sampleAlertClient okPrinter okOutput 1001 false true).2.2.2
    rfl

end Lenses
